import Mathlib

/-!
Verification of the lol-wiki-parser crawl-and-extract pipeline (src/main.py).

The Python source is shallowly embedded:
* the stat regexes (`HEALTH_REGEX`, `RESOURCE_REGEX`, ...) are modelled by
  executable matchers implementing Python `re.match` semantics for the exact
  patterns of the source: anchored at the start of the text, trailing text
  tolerated, `re.IGNORECASE`, greedy character classes with backtracking,
  optional groups returning `none` when absent.  `\d` is modelled as an ASCII
  digit and the character class `[ a-zA-Z]` as space-or-ASCII-letter; an
  unescaped `.` in a pattern matches any character other than a newline;
* `parse_champion_stats`'s per-observation `match` statement is embedded as
  `processStat`, preserving the order of the cases, the `"Resource"` /
  `"N/A"` placeholder skip checks and the substring guard of the
  pathing-radius case;
* the listing extraction of `parse_champion_entrys` is embedded over an
  abstract row model, where a Python `IndexError` raised by indexing an empty
  xpath result is an explicit `ListingError`;
* the tenacity retry loop (`AsyncRetrying` with `stop_after_attempt(3)`,
  `reraise=True`, a `before` callback logging every attempt start and a
  `before_sleep` callback logging a failure only when a further attempt
  follows) is embedded as `retryRun`;
* `asyncio.gather` and the semaphore-bounded fan-out of `main` are embedded
  as `gatherSlots` (results written into index slots in an arbitrary
  completion order) and as the `GateStep` transition system.
-/

/-- One character of a regex literal against one character of the text:
    with `re.IGNORECASE` letters compare case-insensitively; the pattern
    character `.` (unescaped in the source patterns) matches any character
    except a newline. -/
def litStep (p c : Char) : Bool :=
  if p = '.' then c ≠ '\n' else p.toLower = c.toLower

/-- Match a literal pattern fragment (with `.` as any-char) at the start of
    the text, returning the remaining text on success. -/
def matchPat : List Char → List Char → Option (List Char)
  | [], cs => some cs
  | _ :: _, [] => none
  | p :: ps, c :: cs => if litStep p c then matchPat ps cs else none

/-- A character of the class `[\d.]`. -/
def isNumChar (c : Char) : Bool := c.isDigit || c = '.'

/-- A character of the class `[ a-zA-Z]`. -/
def isNameChar (c : Char) : Bool := c = ' ' || c.isAlpha

/-- Greedy `[\d.]+`: the maximal nonempty run of digit-or-dot characters and
    the remaining text. -/
def numRun (cs : List Char) : Option (List Char × List Char) :=
  let run := cs.takeWhile isNumChar
  if run.isEmpty then none else some (run, cs.drop run.length)

/-- The optional growth clause `( \(\+ (?P<growth>[\d.]+)\))?`: returns the
    growth capture when the clause matches, `none` when the group is absent
    (the group is optional, so its failure never fails the whole match). -/
def optGrowth (cs : List Char) : Option String :=
  match matchPat " (+ ".toList cs with
  | some rest =>
    match numRun rest with
    | some (run, ')' :: _) => some (String.mk run)
    | _ => none
  | none => none

/-- `(?P<base>[\d.]+)` followed by the optional growth clause. -/
def numBase (cs : List Char) : Option (String × Option String) :=
  match numRun cs with
  | some (run, rest) => some (String.mk run, optGrowth rest)
  | none => none

/-- The alternation `(N/A|[\d.]+)` followed by the optional growth clause;
    `N/A` is tried first and matches case-insensitively, the capture being
    the text as it appears. -/
def resourceTail (cs : List Char) : Option (String × Option String) :=
  match cs with
  | c1 :: c2 :: c3 :: rest =>
    if c1.toLower = 'n' && c2 = '/' && c3.toLower = 'a' then
      some (String.mk [c1, c2, c3], optGrowth rest)
    else numBase cs
  | _ => numBase cs

/-- Patterns of the shape `LIT(?P<base>[\d.]+)( \(\+ (?P<growth>[\d.]+)\))?`. -/
def matchBaseGrowth (pat : String) (text : String) : Option (String × Option String) :=
  match matchPat pat.toList text.toList with
  | some rest => numBase rest
  | none => none

/-- Patterns of the shape `LIT(?P<v>[\d.]+)SUFFIX`. -/
def matchValueSuffix (pat suffix : String) (text : String) : Option String :=
  match matchPat pat.toList text.toList with
  | some rest =>
    match numRun rest with
    | some (run, rest2) =>
      match matchPat suffix.toList rest2 with
      | some _ => some (String.mk run)
      | none => none
    | none => none
  | none => none

/-- Patterns of the shape `LIT(?P<v>[\+\-][\d.]+)SUFFIX`; the sign is part of
    the capture. -/
def matchSignedSuffix (pat suffix : String) (text : String) : Option String :=
  match matchPat pat.toList text.toList with
  | some (c :: rest) =>
    if c = '+' || c = '-' then
      match numRun rest with
      | some (run, rest2) =>
        match matchPat suffix.toList rest2 with
        | some _ => some (String.mk (c :: run))
        | none => none
      | none => none
    else none
  | _ => none

/-- Backtracking for `(?P<resource_name>[ a-zA-Z]+) (N/A|[\d.]+)...`:
    the greedy class tries name lengths from the maximal run downwards
    (never empty), each followed by a literal space and the resource tail. -/
def resourceTry (cs : List Char) : Nat → Option (String × String × Option String)
  | 0 => none
  | k + 1 =>
    match cs.drop (k + 1) with
    | ' ' :: rest =>
      match resourceTail rest with
      | some (b, g) => some (String.mk (cs.take (k + 1)), b, g)
      | none => resourceTry cs k
    | _ => resourceTry cs k

/-- The tail ` (N/A|[\d.]+)( \(\+ ...\))?` of the resource-regen pattern. -/
def regenSpaceBase (cs : List Char) : Option (String × Option String) :=
  match cs with
  | ' ' :: rest => resourceTail rest
  | _ => none

/-- `( \(per 5s\))? (N/A|[\d.]+)...`: the optional `(per 5s)` clause is tried
    greedily and dropped on failure of the rest. -/
def regenAfterDot (cs : List Char) : Option (String × Option String) :=
  match matchPat " (per 5s)".toList cs with
  | some rest =>
    match regenSpaceBase rest with
    | some r => some r
    | none => regenSpaceBase cs
  | none => regenSpaceBase cs

/-- One position of the resource-regen backtracking: after `k` class
    characters match ` regen`, one any-char (the unescaped `.`), then the
    rest of the pattern. -/
def regenAt (cs : List Char) (k : Nat) : Option (String × Option String) :=
  match matchPat " regen".toList (cs.drop k) with
  | some (c :: rest) => if c = '\n' then none else regenAfterDot rest
  | _ => none

/-- Backtracking for `[ a-zA-Z]* regen.( \(per 5s\))? (N/A|[\d.]+)...`:
    class lengths from the maximal run down to zero. -/
def regenTry (cs : List Char) : Nat → Option (String × Option String)
  | 0 => regenAt cs 0
  | k + 1 =>
    match regenAt cs (k + 1) with
    | some r => some r
    | none => regenTry cs k

/-- `re.match` of `Health (?P<health_base>[\d.]+)( \(\+ (?P<health_growth>[\d.]+)\))?`. -/
def HEALTH_REGEX (text : String) : Option (String × Option String) :=
  matchBaseGrowth "Health " text

/-- `re.match` of `(?P<resource_name>[ a-zA-Z]+) (?P<resource_base>N/A|[\d.]+)( \(\+ (?P<resource_growth>[\d.]+)\))?`. -/
def RESOURCE_REGEX (text : String) : Option (String × String × Option String) :=
  resourceTry text.toList (text.toList.takeWhile isNameChar).length

/-- `re.match` of `Health regen. \(per 5s\) (?P<health_regen_base>[\d.]+)( \(\+ (?P<health_regen_growth>[\d.]+)\))?`. -/
def HEALTH_REGEN_REGEX (text : String) : Option (String × Option String) :=
  matchBaseGrowth "Health regen. (per 5s) " text

/-- `re.match` of `[ a-zA-Z]* regen.( \(per 5s\))? (?P<resource_regen_base>N/A|[\d.]+)( \(\+ (?P<resource_regen_growth>[\d.]+)\))?`. -/
def RESOURCE_REGEN_REGEX (text : String) : Option (String × Option String) :=
  regenTry text.toList (text.toList.takeWhile isNameChar).length

/-- `re.match` of `Armor (?P<armor_base>[\d.]+)( \(\+ (?P<armor_growth>[\d.]+)\))?`. -/
def ARMOR_REGEX (text : String) : Option (String × Option String) :=
  matchBaseGrowth "Armor " text

/-- `re.match` of `Attack damage (?P<attack_base>[\d.]+)( \(\+ (?P<attack_growth>[\d.]+)\))?`. -/
def ATTACK_REGEX (text : String) : Option (String × Option String) :=
  matchBaseGrowth "Attack damage " text

/-- `re.match` of `Magic resist. (?P<magic_resist_base>[\d.]+)( \(\+ (?P<magic_resist_growth>[\d.]+)\))?`. -/
def MAGIC_RESIST_REGEX (text : String) : Option (String × Option String) :=
  matchBaseGrowth "Magic resist. " text

/-- `re.match` of `Crit. damage (?P<crit_damage_percentage>[\d.]+)%`. -/
def CRIT_DAMAGE_PERCENTAGE_REGEX (text : String) : Option String :=
  matchValueSuffix "Crit. damage " "%" text

/-- `re.match` of `Move. speed (?P<movement_speed>[\d.]+)`. -/
def MOVEMENT_SPEED_REGEX (text : String) : Option String :=
  matchValueSuffix "Move. speed " "" text

/-- `re.match` of `Attack range (?P<attack_range>[\d.]+)`. -/
def ATTACK_RANGE_REGEX (text : String) : Option String :=
  matchValueSuffix "Attack range " "" text

/-- `re.match` of `Base AS (?P<attack_speed_base>[\d.]+)`. -/
def ATTACK_SPEED_BASE_REGEX (text : String) : Option String :=
  matchValueSuffix "Base AS " "" text

/-- `re.match` of `Attack windup (?P<attack_windup_percentage>[\d.]+)%`. -/
def ATTACK_WINDUP_PERCENTAGE_REGEX (text : String) : Option String :=
  matchValueSuffix "Attack windup " "%" text

/-- `re.match` of `AS ratio (?P<attack_speed_ratio>[\d.]+)`. -/
def ATTACK_SPEED_RATIO_REGEX (text : String) : Option String :=
  matchValueSuffix "AS ratio " "" text

/-- `re.match` of `Bonus AS (?P<attack_speed_bonus_percentage>[\d.]+) %`. -/
def ATTACK_SPEED_BONUS_PERCENTAGE_REGEX (text : String) : Option String :=
  matchValueSuffix "Bonus AS " " %" text

/-- `re.match` of `Missile speed (?P<missile_speed>[\d.]+)`. -/
def MISSILE_SPEED_REGEX (text : String) : Option String :=
  matchValueSuffix "Missile speed " "" text

/-- `re.match` of `Gameplay radius (?P<gameplay_radius>[\d.]+)`. -/
def GAMEPLAY_RADIUS_REGEX (text : String) : Option String :=
  matchValueSuffix "Gameplay radius " "" text

/-- `re.match` of `Selection radius (?P<selection_radius>[\d.]+)`. -/
def SELECTION_RADIUS_REGEX (text : String) : Option String :=
  matchValueSuffix "Selection radius " "" text

/-- `re.match` of `Pathing radius (?P<pathing_radius>[\d.]+)`. -/
def PATHING_RADIUS_REGEX (text : String) : Option String :=
  matchValueSuffix "Pathing radius " "" text

/-- `re.match` of `Acq. radius (?P<acquisition_radius>[\d.]+)`. -/
def ACQUISITION_RADIUS_REGEX (text : String) : Option String :=
  matchValueSuffix "Acq. radius " "" text

/-- `re.match` of `Damage Dealt (?P<aram_damage_dealt_bonus_percentage>[\+\-][\d.]+)%`. -/
def ARAM_DAMEGE_DEALT_BONUS_PERCENTAGE_REGEX (text : String) : Option String :=
  matchSignedSuffix "Damage Dealt " "%" text

/-- `re.match` of `Damage Received (?P<aram_damage_taken_bonus_percentage>[\+\-][\d.]+)%`. -/
def ARAM_DAMEGE_TAKEN_BONUS_PERCENTAGE_REGEX (text : String) : Option String :=
  matchSignedSuffix "Damage Received " "%" text

/-- `re.match` of `Total Attack Speed (?P<aram_attack_speed_bonus_percentage>[\+\-][\d.]+)%`. -/
def ARAM_ATTACK_SPEED_BONUS_PERCENTAGE_REGEX (text : String) : Option String :=
  matchSignedSuffix "Total Attack Speed " "%" text

/-- `re.match` of `Ability Haste (?P<aram_ability_haste_bonus>[\+\-][\d.]+)`. -/
def ARAM_ABILITY_HASTE_BONUS_REGEX (text : String) : Option String :=
  matchSignedSuffix "Ability Haste " "" text

/-- `re.match` of `Energy Regen (?P<aram_energy_regen_bonus_percentage>[\+\-][\d.]+)%`. -/
def ARAM_ENERGY_REGEN_BONUS_PERCENTAGE_REGEX (text : String) : Option String :=
  matchSignedSuffix "Energy Regen " "%" text

/-- `re.match` of `Healing (?P<aram_healing_bonus_percentage>[\+\-][\d.]+)%`. -/
def ARAM_HEALING_BONUS_PERCENTAGE_REGEX (text : String) : Option String :=
  matchSignedSuffix "Healing " "%" text

/-- `re.match` of `Shielding (?P<aram_shielding_bonus_percentage>[\+\-][\d.]+)%`. -/
def ARAM_SHIELDING_BONUS_PERCENTAGE_REGEX (text : String) : Option String :=
  matchSignedSuffix "Shielding " "%" text

/-- `re.match` of `Tenacity & Slow Resist (?P<aram_tenacity_bonus_percentage>[\+\-][\d.]+)%`. -/
def ARAM_TENACITY_BONUS_PERCENTAGE_REGEX (text : String) : Option String :=
  matchSignedSuffix "Tenacity & Slow Resist " "%" text

example : HEALTH_REGEX "Health 600 (+ 90)" = some ("600", some "90") := by decide
example : HEALTH_REGEX "Health 600" = some ("600", none) := by decide
example : RESOURCE_REGEX "Mana 100 (+ 10)" = some ("Mana", "100", some "10") := by decide
example : RESOURCE_REGEX "Resource N/A" = some ("Resource", "N/A", none) := by decide
example : RESOURCE_REGEN_REGEX "Mana regen. (per 5s) 8 (+ 0.8)" = some ("8", some "0.8") := by decide
example : RESOURCE_REGEN_REGEX "mana regen. n/a" = some ("n/a", none) := by decide
example : PATHING_RADIUS_REGEX "Pathing radius 35" = some "35" := by decide

/-- `ChampionEntry` of src/main.py.  `name` comes from lxml's
    `get("data-sort-value")`, which yields `None` when the attribute is
    absent, hence `Option String`. -/
structure ChampionEntry where
  name : Option String
  last_changed_patch : String
  stats_url : String
deriving DecidableEq, Repr

/-- `ChampionStats` of src/main.py: one optional string slot per schema
    attribute, all defaulting to unset. -/
structure ChampionStats where
  name : Option String
  health_base : Option String := none
  health_growth : Option String := none
  resource_name : Option String := none
  resource_base : Option String := none
  resource_growth : Option String := none
  health_regen_base : Option String := none
  health_regen_growth : Option String := none
  resource_regen_base : Option String := none
  resource_regen_growth : Option String := none
  armor_base : Option String := none
  armor_growth : Option String := none
  attack_base : Option String := none
  attack_growth : Option String := none
  magic_resist_base : Option String := none
  magic_resist_growth : Option String := none
  crit_damage_percentage : Option String := none
  movement_speed : Option String := none
  attack_range : Option String := none
  attack_speed_base : Option String := none
  attack_windup_percentage : Option String := none
  attack_speed_ratio : Option String := none
  attack_speed_bonus_percentage : Option String := none
  missile_speed : Option String := none
  gameplay_radius : Option String := none
  selection_radius : Option String := none
  pathing_radius : Option String := none
  acquisition_radius : Option String := none
  aram_damage_dealt_bonus_percentage : Option String := none
  aram_damage_taken_bonus_percentage : Option String := none
  aram_attack_speed_bonus_percentage : Option String := none
  aram_ability_haste_bonus : Option String := none
  aram_energy_regen_bonus_percentage : Option String := none
  aram_healing_bonus_percentage : Option String := none
  aram_shielding_bonus_percentage : Option String := none
  aram_tenacity_bonus_percentage : Option String := none
deriving DecidableEq, Repr

/-- One `(data-source label, flattened inner text)` pair harvested from a
    detail-page element. -/
structure RawFieldObservation where
  field_name : String
  text : String
deriving DecidableEq, Repr

/-- Python substring containment (`needle in haystack`) on character lists. -/
def subAux (needle : List Char) : List Char → Bool
  | [] => needle.isEmpty
  | c :: t => (c :: t).take needle.length == needle || subAux needle t

/-- Python substring containment `needle in hay` on strings. -/
def strHasSub (hay needle : String) : Bool :=
  subAux needle.toList hay.toList

/-- Python `str.startswith` on character lists (exact, case-sensitive). -/
def startsAux : List Char → List Char → Bool
  | [], _ => true
  | _ :: _, [] => false
  | p :: ps, c :: cs => p = c && startsAux ps cs

/-- Python `field_name.startswith(marker)`. -/
def pyStarts (s marker : String) : Bool :=
  startsAux marker.toList s.toList

/-- The label markers of the intentionally ignored fields
    (`field_name.startswith(prefix)` in the source). -/
def ignoreMarkers : List String :=
  ["nb-", "nb_", "ofa-", "ofa_", "urf-", "usb-", "usb_", "ar_"]

/-- The `case "health"` arm of `parse_champion_stats`. -/
def applyHealth (cs : ChampionStats) (text : String) : ChampionStats :=
  match HEALTH_REGEX text with
  | some (b, g) => { cs with health_base := some b, health_growth := g }
  | none => cs

/-- The `case "resource"` arm of `parse_champion_stats`: skipped when the
    matched resource name is exactly the placeholder `"Resource"`. -/
def applyResource (cs : ChampionStats) (text : String) : ChampionStats :=
  match RESOURCE_REGEX text with
  | some (nm, b, g) =>
    if nm ≠ "Resource" then
      { cs with resource_name := some nm, resource_base := some b, resource_growth := g }
    else cs
  | none => cs

/-- The `case "health regen"` arm of `parse_champion_stats`. -/
def applyHealthRegen (cs : ChampionStats) (text : String) : ChampionStats :=
  match HEALTH_REGEN_REGEX text with
  | some (b, g) => { cs with health_regen_base := some b, health_regen_growth := g }
  | none => cs

/-- The `case "resource regen"` arm of `parse_champion_stats`: skipped when
    the matched base is exactly the placeholder `"N/A"`. -/
def applyResourceRegen (cs : ChampionStats) (text : String) : ChampionStats :=
  match RESOURCE_REGEN_REGEX text with
  | some (b, g) =>
    if b ≠ "N/A" then
      { cs with resource_regen_base := some b, resource_regen_growth := g }
    else cs
  | none => cs

/-- The `case "armor"` arm of `parse_champion_stats`. -/
def applyArmor (cs : ChampionStats) (text : String) : ChampionStats :=
  match ARMOR_REGEX text with
  | some (b, g) => { cs with armor_base := some b, armor_growth := g }
  | none => cs

/-- The `case "attack damage"` arm of `parse_champion_stats`. -/
def applyAttack (cs : ChampionStats) (text : String) : ChampionStats :=
  match ATTACK_REGEX text with
  | some (b, g) => { cs with attack_base := some b, attack_growth := g }
  | none => cs

/-- The `case "mr"` arm of `parse_champion_stats`. -/
def applyMagicResist (cs : ChampionStats) (text : String) : ChampionStats :=
  match MAGIC_RESIST_REGEX text with
  | some (b, g) => { cs with magic_resist_base := some b, magic_resist_growth := g }
  | none => cs

/-- The `case "critical damage"` arm of `parse_champion_stats`. -/
def applyCritDamage (cs : ChampionStats) (text : String) : ChampionStats :=
  match CRIT_DAMAGE_PERCENTAGE_REGEX text with
  | some v => { cs with crit_damage_percentage := some v }
  | none => cs

/-- The `case "ms"` arm of `parse_champion_stats`. -/
def applyMovementSpeed (cs : ChampionStats) (text : String) : ChampionStats :=
  match MOVEMENT_SPEED_REGEX text with
  | some v => { cs with movement_speed := some v }
  | none => cs

/-- The `case "range"` arm of `parse_champion_stats`. -/
def applyAttackRange (cs : ChampionStats) (text : String) : ChampionStats :=
  match ATTACK_RANGE_REGEX text with
  | some v => { cs with attack_range := some v }
  | none => cs

/-- The `case "attack speed"` arm of `parse_champion_stats`. -/
def applyAttackSpeedBase (cs : ChampionStats) (text : String) : ChampionStats :=
  match ATTACK_SPEED_BASE_REGEX text with
  | some v => { cs with attack_speed_base := some v }
  | none => cs

/-- The `case "windup"` arm of `parse_champion_stats`. -/
def applyWindup (cs : ChampionStats) (text : String) : ChampionStats :=
  match ATTACK_WINDUP_PERCENTAGE_REGEX text with
  | some v => { cs with attack_windup_percentage := some v }
  | none => cs

/-- The `case "as ratio"` arm of `parse_champion_stats`. -/
def applyAsRatio (cs : ChampionStats) (text : String) : ChampionStats :=
  match ATTACK_SPEED_RATIO_REGEX text with
  | some v => { cs with attack_speed_ratio := some v }
  | none => cs

/-- The `case "bonus as"` arm of `parse_champion_stats`. -/
def applyBonusAs (cs : ChampionStats) (text : String) : ChampionStats :=
  match ATTACK_SPEED_BONUS_PERCENTAGE_REGEX text with
  | some v => { cs with attack_speed_bonus_percentage := some v }
  | none => cs

/-- The `case "missile speed"` arm of `parse_champion_stats`. -/
def applyMissileSpeed (cs : ChampionStats) (text : String) : ChampionStats :=
  match MISSILE_SPEED_REGEX text with
  | some v => { cs with missile_speed := some v }
  | none => cs

/-- The `case "gameplay radius"` arm of `parse_champion_stats`. -/
def applyGameplayRadius (cs : ChampionStats) (text : String) : ChampionStats :=
  match GAMEPLAY_RADIUS_REGEX text with
  | some v => { cs with gameplay_radius := some v }
  | none => cs

/-- The `case "selection radius"` arm of `parse_champion_stats`. -/
def applySelectionRadius (cs : ChampionStats) (text : String) : ChampionStats :=
  match SELECTION_RADIUS_REGEX text with
  | some v => { cs with selection_radius := some v }
  | none => cs

/-- The `case _ if "pathing radius" in field_name` arm of
    `parse_champion_stats`. -/
def applyPathingRadius (cs : ChampionStats) (text : String) : ChampionStats :=
  match PATHING_RADIUS_REGEX text with
  | some v => { cs with pathing_radius := some v }
  | none => cs

/-- The `case "acquisition radius"` arm of `parse_champion_stats`. -/
def applyAcquisitionRadius (cs : ChampionStats) (text : String) : ChampionStats :=
  match ACQUISITION_RADIUS_REGEX text with
  | some v => { cs with acquisition_radius := some v }
  | none => cs

/-- The `case "aram-dmg-dealt"` arm of `parse_champion_stats`. -/
def applyAramDealt (cs : ChampionStats) (text : String) : ChampionStats :=
  match ARAM_DAMEGE_DEALT_BONUS_PERCENTAGE_REGEX text with
  | some v => { cs with aram_damage_dealt_bonus_percentage := some v }
  | none => cs

/-- The `case "aram-dmg-taken"` arm of `parse_champion_stats`. -/
def applyAramTaken (cs : ChampionStats) (text : String) : ChampionStats :=
  match ARAM_DAMEGE_TAKEN_BONUS_PERCENTAGE_REGEX text with
  | some v => { cs with aram_damage_taken_bonus_percentage := some v }
  | none => cs

/-- The `case "aram_attack_speed"` arm of `parse_champion_stats`. -/
def applyAramAttackSpeed (cs : ChampionStats) (text : String) : ChampionStats :=
  match ARAM_ATTACK_SPEED_BONUS_PERCENTAGE_REGEX text with
  | some v => { cs with aram_attack_speed_bonus_percentage := some v }
  | none => cs

/-- The `case "aram_ability_haste"` arm of `parse_champion_stats`. -/
def applyAramHaste (cs : ChampionStats) (text : String) : ChampionStats :=
  match ARAM_ABILITY_HASTE_BONUS_REGEX text with
  | some v => { cs with aram_ability_haste_bonus := some v }
  | none => cs

/-- The `case "aram_energy_regen"` arm of `parse_champion_stats`. -/
def applyAramEnergy (cs : ChampionStats) (text : String) : ChampionStats :=
  match ARAM_ENERGY_REGEN_BONUS_PERCENTAGE_REGEX text with
  | some v => { cs with aram_energy_regen_bonus_percentage := some v }
  | none => cs

/-- The `case "aram-healing"` arm of `parse_champion_stats`. -/
def applyAramHealing (cs : ChampionStats) (text : String) : ChampionStats :=
  match ARAM_HEALING_BONUS_PERCENTAGE_REGEX text with
  | some v => { cs with aram_healing_bonus_percentage := some v }
  | none => cs

/-- The `case "aram-shielding"` arm of `parse_champion_stats`. -/
def applyAramShielding (cs : ChampionStats) (text : String) : ChampionStats :=
  match ARAM_SHIELDING_BONUS_PERCENTAGE_REGEX text with
  | some v => { cs with aram_shielding_bonus_percentage := some v }
  | none => cs

/-- The `case "aram_tenacity"` arm of `parse_champion_stats`. -/
def applyAramTenacity (cs : ChampionStats) (text : String) : ChampionStats :=
  match ARAM_TENACITY_BONUS_PERCENTAGE_REGEX text with
  | some v => { cs with aram_tenacity_bonus_percentage := some v }
  | none => cs

/-- One iteration of the `for el in details_root.xpath(...)` loop of
    `parse_champion_stats`: empty text is skipped, then the label is
    dispatched by the `match` statement of the source with the cases in source
    order (the pathing-radius case guarded by substring containment, the
    ignore list by a startswith check).  Unknown labels only produce a log
    warning, which leaves the record unchanged. -/
def processStat (cs : ChampionStats) (obs : RawFieldObservation) : ChampionStats :=
  if obs.text = "" then cs
  else if obs.field_name = "health" then applyHealth cs obs.text
  else if obs.field_name = "resource" then applyResource cs obs.text
  else if obs.field_name = "health regen" then applyHealthRegen cs obs.text
  else if obs.field_name = "resource regen" then applyResourceRegen cs obs.text
  else if obs.field_name = "armor" then applyArmor cs obs.text
  else if obs.field_name = "attack damage" then applyAttack cs obs.text
  else if obs.field_name = "mr" then applyMagicResist cs obs.text
  else if obs.field_name = "critical damage" then applyCritDamage cs obs.text
  else if obs.field_name = "ms" then applyMovementSpeed cs obs.text
  else if obs.field_name = "range" then applyAttackRange cs obs.text
  else if obs.field_name = "attack speed" then applyAttackSpeedBase cs obs.text
  else if obs.field_name = "windup" then applyWindup cs obs.text
  else if obs.field_name = "as ratio" then applyAsRatio cs obs.text
  else if obs.field_name = "bonus as" then applyBonusAs cs obs.text
  else if obs.field_name = "missile speed" then applyMissileSpeed cs obs.text
  else if obs.field_name = "gameplay radius" then applyGameplayRadius cs obs.text
  else if obs.field_name = "selection radius" then applySelectionRadius cs obs.text
  else if strHasSub obs.field_name "pathing radius" then applyPathingRadius cs obs.text
  else if obs.field_name = "acquisition radius" then applyAcquisitionRadius cs obs.text
  else if obs.field_name = "aram-dmg-dealt" then applyAramDealt cs obs.text
  else if obs.field_name = "aram-dmg-taken" then applyAramTaken cs obs.text
  else if obs.field_name = "aram_attack_speed" then applyAramAttackSpeed cs obs.text
  else if obs.field_name = "aram_ability_haste" then applyAramHaste cs obs.text
  else if obs.field_name = "aram_energy_regen" then applyAramEnergy cs obs.text
  else if obs.field_name = "aram-healing" then applyAramHealing cs obs.text
  else if obs.field_name = "aram-shielding" then applyAramShielding cs obs.text
  else if obs.field_name = "aram_tenacity" then applyAramTenacity cs obs.text
  else if ignoreMarkers.any (fun p => pyStarts obs.field_name p) then cs
  else cs

/-- The pure tail of `parse_champion_stats` (the page-navigation part is
    modelled separately by `retryRun`): the record starts with only the
    stub's name and is folded over the harvested observations in document
    order. -/
def parse_champion_stats (entry : ChampionEntry) (obss : List RawFieldObservation) : ChampionStats :=
  obss.foldl processStat { name := entry.name }

example :
    parse_champion_stats ⟨some "X", "V14", "u"⟩
      [⟨"health", "Health 600 (+ 90)"⟩, ⟨"resource", "Mana 100 (+ 10)"⟩] =
    { name := some "X", health_base := some "600", health_growth := some "90",
      resource_name := some "Mana", resource_base := some "100",
      resource_growth := some "10" } := by decide

/-- Python `str.strip()`: remove leading and trailing whitespace
    (structurally, over the character list). -/
def pyStrip (s : String) : String :=
  String.mk (((s.toList.dropWhile Char.isWhitespace).reverse.dropWhile
    Char.isWhitespace).reverse)

/-- A table cell of the roster table, as read by `parse_champion_entrys`:
    the sort-key attribute (lxml `get` yields `None` when absent), the
    flattened text, and the `href`s of the anchors below the cell (the source
    indexes the first anchor and concatenates its `href` to the base URL;
    presence of the `href` attribute itself is assumed, as in the source's
    type annotations). -/
structure TableCell where
  dataSortValue : Option String
  textContent : String
  anchorHrefs : List String
deriving DecidableEq, Repr

/-- A data row of the roster table: the first and the fourth `td` child, if
    present (`row.xpath("./td[1]")` / `row.xpath("./td[4]")` return empty
    lists otherwise, and indexing `[0]` then raises `IndexError`). -/
structure TableRow where
  td1 : Option TableCell
  td4 : Option TableCell
deriving DecidableEq, Repr

/-- The `IndexError` raised by `parse_champion_entrys` when a required cell
    of a listing row is missing, tagged by the xpath expression whose result
    was empty. -/
inductive ListingError where
  | missingTd1
  | missingTd4
  | missingAnchor
deriving DecidableEq, Repr

/-- One iteration of the row loop of `parse_champion_entrys`, in source
    evaluation order: `td[1]`'s sort key, `td[4]`'s stripped text, then the
    first anchor of `td[1]`. -/
def parseRow (base_url : String) (row : TableRow) : Except ListingError ChampionEntry :=
  match row.td1 with
  | none => Except.error ListingError.missingTd1
  | some c1 =>
    match row.td4 with
    | none => Except.error ListingError.missingTd4
    | some c4 =>
      match c1.anchorHrefs with
      | [] => Except.error ListingError.missingAnchor
      | a :: _ =>
        Except.ok { name := c1.dataSortValue,
                    last_changed_patch := pyStrip c4.textContent,
                    stats_url := base_url ++ a }

/-- The row loop of `parse_champion_entrys`: rows are processed in document
    order and the first raised `IndexError` aborts the whole crawl. -/
def parse_champion_entrys (base_url : String) : List TableRow → Except ListingError (List ChampionEntry)
  | [] => Except.ok []
  | r :: rs =>
    match parseRow base_url r with
    | Except.error e => Except.error e
    | Except.ok entry =>
      match parse_champion_entrys base_url rs with
      | Except.error e => Except.error e
      | Except.ok l => Except.ok (entry :: l)

/-- Whether a listing row has every cell the source indexes into. -/
def rowComplete (row : TableRow) : Bool :=
  match row.td1 with
  | none => false
  | some c1 => row.td4.isSome && !c1.anchorHrefs.isEmpty

/-- The stub a complete listing row yields (junk values on incomplete rows,
    which `parse_champion_entrys` never returns). -/
def rowEntry (base_url : String) (row : TableRow) : ChampionEntry :=
  { name := (row.td1.getD ⟨none, "", []⟩).dataSortValue,
    last_changed_patch := pyStrip (row.td4.getD ⟨none, "", []⟩).textContent,
    stats_url := base_url ++ (row.td1.getD ⟨none, "", []⟩).anchorHrefs.headD "" }

/-- An event of the tenacity retry loop, as produced by the `before` callback
    (attempt start, every attempt) and the `before_sleep` callback (attempt
    failure, only when a further attempt follows). -/
inductive RetryEvent (E : Type) where
  | started (ordinal : Nat)
  | failed (ordinal : Nat) (err : E)
deriving DecidableEq, Repr

/-- The tenacity `AsyncRetrying` loop from attempt number `i` with the given
    number of attempts still allowed (`stop_after_attempt`): the `before`
    callback logs every attempt start; on failure, if an attempt remains the
    `before_sleep` callback logs the ordinal and error and the next attempt
    runs immediately, otherwise `reraise=True` surfaces the last error
    unmodified.  (Modelled for at least one allowed attempt, as in the
    source's `stop_after_attempt(3)`.) -/
def retryGo {E A : Type} (attempts : Nat → Except E A) (i : Nat) : Nat → Except E A × List (RetryEvent E)
  | 0 => (attempts i, [RetryEvent.started i])
  | 1 => (attempts i, [RetryEvent.started i])
  | r + 2 =>
    match attempts i with
    | Except.ok a => (Except.ok a, [RetryEvent.started i])
    | Except.error e =>
      let next := retryGo attempts (i + 1) (r + 1)
      (next.1, RetryEvent.started i :: RetryEvent.failed i e :: next.2)

/-- The retry wrapper shared by `parse_champion_entrys` (around `page_goto`)
    and `parse_champion_stats` (around `page_goto` plus the level-select
    step), instantiated in the source with `maxAttempts = 3`: attempt `k`
    performs the wrapped body, whose outcome is `attempts k`. -/
def retryRun {E A : Type} (attempts : Nat → Except E A) (maxAttempts : Nat) :
    Except E A × List (RetryEvent E) :=
  retryGo attempts 1 maxAttempts

/-- Count of attempt starts in a retry log. -/
def countStarted {E : Type} (log : List (RetryEvent E)) : Nat :=
  log.countP fun ev => match ev with
    | RetryEvent.started _ => true
    | RetryEvent.failed _ _ => false

/-- Count of failure log entries with the given ordinal. -/
def countFailedAt {E : Type} (n : Nat) (log : List (RetryEvent E)) : Nat :=
  log.countP fun ev => match ev with
    | RetryEvent.started _ => false
    | RetryEvent.failed m _ => m == n

/-- A navigation body whose every attempt fails, the error recording the
    attempt number (used to exercise the retry loop). -/
def alwaysFailNav (n : Nat) : Except Nat Unit := Except.error n

example : retryRun alwaysFailNav 3 =
    (Except.error 3,
     [RetryEvent.started 1, RetryEvent.failed 1 1,
      RetryEvent.started 2, RetryEvent.failed 2 2,
      RetryEvent.started 3]) := rfl

/-- The detail crawl of one stub as a record-producing function: navigation
    and DOM harvesting are abstracted by `obsOf`, the observation sequence a
    stub's rendered detail page yields. -/
def detailOf (obsOf : ChampionEntry → List RawFieldObservation) (e : ChampionEntry) : ChampionStats :=
  parse_champion_stats e (obsOf e)

/-- `asyncio.gather` over the detail-crawl tasks: each task writes its
    result into the slot of its own index; `order` is the order in which the
    racing tasks complete.  `gather` returns the slots in index order, which
    is what makes the output order independent of the completion order. -/
def gatherSlots {α β : Type} (f : α → β) (stubs : List α) (order : List Nat) :
    List (Option β) :=
  order.foldl (fun slots i => slots.set i ((stubs[i]?).map f))
    (List.replicate stubs.length none)

/-- The stub list truncation `champion_listing_results[: env.MAX_NUM_CHAMPIONS]`
    (`None` slices the whole list). -/
def truncStubs (stubs : List ChampionEntry) (maxN : Option Nat) : List ChampionEntry :=
  match maxN with
  | none => stubs
  | some k => stubs.take k

/-- The pairing step of `main`: the detail crawls are fanned out over the
    truncated stub list and complete in `order`; the final artifact zips the
    listing results with the gathered details. -/
def mainPairs (obsOf : ChampionEntry → List RawFieldObservation)
    (stubs : List ChampionEntry) (maxN : Option Nat) (order : List Nat) :
    List (ChampionEntry × Option ChampionStats) :=
  stubs.zip (gatherSlots (detailOf obsOf) (truncStubs stubs maxN) order)

/-- Status of one detail-crawl task with respect to the semaphore. -/
inductive TaskPhase where
  | idle
  | inFlight
  | finished
deriving DecidableEq, Repr

/-- State of the concurrency gate: free permits of the semaphore
    (`asyncio.Semaphore(N)`) and the phase of each detail-crawl task. -/
structure GateState where
  permits : Nat
  tasks : List TaskPhase
deriving DecidableEq, Repr

/-- A task is in flight. -/
def isInFlight (t : TaskPhase) : Bool :=
  match t with
  | TaskPhase.inFlight => true
  | _ => false

/-- Number of detail crawls in flight. -/
def inFlightCount (s : GateState) : Nat :=
  s.tasks.countP isInFlight

/-- The transitions of the semaphore-guarded fan-out (`async with sem:` in
    `parse_champion_stats`): a task starts its network work only by taking a
    free permit, and leaving the `async with` block — on success or failure —
    returns the permit.  No other transition touches the gate. -/
inductive GateStep : GateState → GateState → Prop where
  | acquire (s : GateState) (i : Nat) (hp : 0 < s.permits)
      (ht : s.tasks[i]? = some TaskPhase.idle) :
      GateStep s ⟨s.permits - 1, s.tasks.set i TaskPhase.inFlight⟩
  | release (s : GateState) (i : Nat)
      (ht : s.tasks[i]? = some TaskPhase.inFlight) :
      GateStep s ⟨s.permits + 1, s.tasks.set i TaskPhase.finished⟩

/-- States of a run with gate size `n` and `numTasks` detail crawls: the run
    starts with all permits free and every task idle. -/
inductive GateReachable (n numTasks : Nat) : GateState → Prop where
  | start : GateReachable n numTasks ⟨n, List.replicate numTasks TaskPhase.idle⟩
  | step {s s' : GateState} : GateReachable n numTasks s → GateStep s s' →
      GateReachable n numTasks s'


theorem applyHealth_shape (cs : ChampionStats) (t : String) :
    ∃ b g : Option String, applyHealth cs t = { cs with health_base := b, health_growth := g } := by
  unfold applyHealth
  repeat' split
  all_goals exact ⟨_, _, rfl⟩

theorem applyResource_shape (cs : ChampionStats) (t : String) :
    ∃ nm b g : Option String, applyResource cs t = { cs with resource_name := nm, resource_base := b, resource_growth := g } := by
  unfold applyResource
  repeat' split
  all_goals exact ⟨_, _, _, rfl⟩

theorem applyHealthRegen_shape (cs : ChampionStats) (t : String) :
    ∃ b g : Option String, applyHealthRegen cs t = { cs with health_regen_base := b, health_regen_growth := g } := by
  unfold applyHealthRegen
  repeat' split
  all_goals exact ⟨_, _, rfl⟩

theorem applyResourceRegen_shape (cs : ChampionStats) (t : String) :
    ∃ b g : Option String, applyResourceRegen cs t = { cs with resource_regen_base := b, resource_regen_growth := g } := by
  unfold applyResourceRegen
  repeat' split
  all_goals exact ⟨_, _, rfl⟩

theorem applyArmor_shape (cs : ChampionStats) (t : String) :
    ∃ b g : Option String, applyArmor cs t = { cs with armor_base := b, armor_growth := g } := by
  unfold applyArmor
  repeat' split
  all_goals exact ⟨_, _, rfl⟩

theorem applyAttack_shape (cs : ChampionStats) (t : String) :
    ∃ b g : Option String, applyAttack cs t = { cs with attack_base := b, attack_growth := g } := by
  unfold applyAttack
  repeat' split
  all_goals exact ⟨_, _, rfl⟩

theorem applyMagicResist_shape (cs : ChampionStats) (t : String) :
    ∃ b g : Option String, applyMagicResist cs t = { cs with magic_resist_base := b, magic_resist_growth := g } := by
  unfold applyMagicResist
  repeat' split
  all_goals exact ⟨_, _, rfl⟩

theorem applyCritDamage_shape (cs : ChampionStats) (t : String) :
    ∃ b : Option String, applyCritDamage cs t = { cs with crit_damage_percentage := b } := by
  unfold applyCritDamage
  repeat' split
  all_goals exact ⟨_, rfl⟩

theorem applyMovementSpeed_shape (cs : ChampionStats) (t : String) :
    ∃ b : Option String, applyMovementSpeed cs t = { cs with movement_speed := b } := by
  unfold applyMovementSpeed
  repeat' split
  all_goals exact ⟨_, rfl⟩

theorem applyAttackRange_shape (cs : ChampionStats) (t : String) :
    ∃ b : Option String, applyAttackRange cs t = { cs with attack_range := b } := by
  unfold applyAttackRange
  repeat' split
  all_goals exact ⟨_, rfl⟩

theorem applyAttackSpeedBase_shape (cs : ChampionStats) (t : String) :
    ∃ b : Option String, applyAttackSpeedBase cs t = { cs with attack_speed_base := b } := by
  unfold applyAttackSpeedBase
  repeat' split
  all_goals exact ⟨_, rfl⟩

theorem applyWindup_shape (cs : ChampionStats) (t : String) :
    ∃ b : Option String, applyWindup cs t = { cs with attack_windup_percentage := b } := by
  unfold applyWindup
  repeat' split
  all_goals exact ⟨_, rfl⟩

theorem applyAsRatio_shape (cs : ChampionStats) (t : String) :
    ∃ b : Option String, applyAsRatio cs t = { cs with attack_speed_ratio := b } := by
  unfold applyAsRatio
  repeat' split
  all_goals exact ⟨_, rfl⟩

theorem applyBonusAs_shape (cs : ChampionStats) (t : String) :
    ∃ b : Option String, applyBonusAs cs t = { cs with attack_speed_bonus_percentage := b } := by
  unfold applyBonusAs
  repeat' split
  all_goals exact ⟨_, rfl⟩

theorem applyMissileSpeed_shape (cs : ChampionStats) (t : String) :
    ∃ b : Option String, applyMissileSpeed cs t = { cs with missile_speed := b } := by
  unfold applyMissileSpeed
  repeat' split
  all_goals exact ⟨_, rfl⟩

theorem applyGameplayRadius_shape (cs : ChampionStats) (t : String) :
    ∃ b : Option String, applyGameplayRadius cs t = { cs with gameplay_radius := b } := by
  unfold applyGameplayRadius
  repeat' split
  all_goals exact ⟨_, rfl⟩

theorem applySelectionRadius_shape (cs : ChampionStats) (t : String) :
    ∃ b : Option String, applySelectionRadius cs t = { cs with selection_radius := b } := by
  unfold applySelectionRadius
  repeat' split
  all_goals exact ⟨_, rfl⟩

theorem applyPathingRadius_shape (cs : ChampionStats) (t : String) :
    ∃ b : Option String, applyPathingRadius cs t = { cs with pathing_radius := b } := by
  unfold applyPathingRadius
  repeat' split
  all_goals exact ⟨_, rfl⟩

theorem applyAcquisitionRadius_shape (cs : ChampionStats) (t : String) :
    ∃ b : Option String, applyAcquisitionRadius cs t = { cs with acquisition_radius := b } := by
  unfold applyAcquisitionRadius
  repeat' split
  all_goals exact ⟨_, rfl⟩

theorem applyAramDealt_shape (cs : ChampionStats) (t : String) :
    ∃ b : Option String, applyAramDealt cs t = { cs with aram_damage_dealt_bonus_percentage := b } := by
  unfold applyAramDealt
  repeat' split
  all_goals exact ⟨_, rfl⟩

theorem applyAramTaken_shape (cs : ChampionStats) (t : String) :
    ∃ b : Option String, applyAramTaken cs t = { cs with aram_damage_taken_bonus_percentage := b } := by
  unfold applyAramTaken
  repeat' split
  all_goals exact ⟨_, rfl⟩

theorem applyAramAttackSpeed_shape (cs : ChampionStats) (t : String) :
    ∃ b : Option String, applyAramAttackSpeed cs t = { cs with aram_attack_speed_bonus_percentage := b } := by
  unfold applyAramAttackSpeed
  repeat' split
  all_goals exact ⟨_, rfl⟩

theorem applyAramHaste_shape (cs : ChampionStats) (t : String) :
    ∃ b : Option String, applyAramHaste cs t = { cs with aram_ability_haste_bonus := b } := by
  unfold applyAramHaste
  repeat' split
  all_goals exact ⟨_, rfl⟩

theorem applyAramEnergy_shape (cs : ChampionStats) (t : String) :
    ∃ b : Option String, applyAramEnergy cs t = { cs with aram_energy_regen_bonus_percentage := b } := by
  unfold applyAramEnergy
  repeat' split
  all_goals exact ⟨_, rfl⟩

theorem applyAramHealing_shape (cs : ChampionStats) (t : String) :
    ∃ b : Option String, applyAramHealing cs t = { cs with aram_healing_bonus_percentage := b } := by
  unfold applyAramHealing
  repeat' split
  all_goals exact ⟨_, rfl⟩

theorem applyAramShielding_shape (cs : ChampionStats) (t : String) :
    ∃ b : Option String, applyAramShielding cs t = { cs with aram_shielding_bonus_percentage := b } := by
  unfold applyAramShielding
  repeat' split
  all_goals exact ⟨_, rfl⟩

theorem applyAramTenacity_shape (cs : ChampionStats) (t : String) :
    ∃ b : Option String, applyAramTenacity cs t = { cs with aram_tenacity_bonus_percentage := b } := by
  unfold applyAramTenacity
  repeat' split
  all_goals exact ⟨_, rfl⟩

theorem applyHealth_none (cs : ChampionStats) (t : String) (h : HEALTH_REGEX t = none) :
    applyHealth cs t = cs := by
  unfold applyHealth
  rw [h]

theorem applyResource_none (cs : ChampionStats) (t : String) (h : RESOURCE_REGEX t = none) :
    applyResource cs t = cs := by
  unfold applyResource
  rw [h]

theorem applyHealthRegen_none (cs : ChampionStats) (t : String) (h : HEALTH_REGEN_REGEX t = none) :
    applyHealthRegen cs t = cs := by
  unfold applyHealthRegen
  rw [h]

theorem applyResourceRegen_none (cs : ChampionStats) (t : String) (h : RESOURCE_REGEN_REGEX t = none) :
    applyResourceRegen cs t = cs := by
  unfold applyResourceRegen
  rw [h]

theorem applyArmor_none (cs : ChampionStats) (t : String) (h : ARMOR_REGEX t = none) :
    applyArmor cs t = cs := by
  unfold applyArmor
  rw [h]

theorem applyAttack_none (cs : ChampionStats) (t : String) (h : ATTACK_REGEX t = none) :
    applyAttack cs t = cs := by
  unfold applyAttack
  rw [h]

theorem applyMagicResist_none (cs : ChampionStats) (t : String) (h : MAGIC_RESIST_REGEX t = none) :
    applyMagicResist cs t = cs := by
  unfold applyMagicResist
  rw [h]

theorem applyCritDamage_none (cs : ChampionStats) (t : String) (h : CRIT_DAMAGE_PERCENTAGE_REGEX t = none) :
    applyCritDamage cs t = cs := by
  unfold applyCritDamage
  rw [h]

theorem applyMovementSpeed_none (cs : ChampionStats) (t : String) (h : MOVEMENT_SPEED_REGEX t = none) :
    applyMovementSpeed cs t = cs := by
  unfold applyMovementSpeed
  rw [h]

theorem applyAttackRange_none (cs : ChampionStats) (t : String) (h : ATTACK_RANGE_REGEX t = none) :
    applyAttackRange cs t = cs := by
  unfold applyAttackRange
  rw [h]

theorem applyAttackSpeedBase_none (cs : ChampionStats) (t : String) (h : ATTACK_SPEED_BASE_REGEX t = none) :
    applyAttackSpeedBase cs t = cs := by
  unfold applyAttackSpeedBase
  rw [h]

theorem applyWindup_none (cs : ChampionStats) (t : String) (h : ATTACK_WINDUP_PERCENTAGE_REGEX t = none) :
    applyWindup cs t = cs := by
  unfold applyWindup
  rw [h]

theorem applyAsRatio_none (cs : ChampionStats) (t : String) (h : ATTACK_SPEED_RATIO_REGEX t = none) :
    applyAsRatio cs t = cs := by
  unfold applyAsRatio
  rw [h]

theorem applyBonusAs_none (cs : ChampionStats) (t : String) (h : ATTACK_SPEED_BONUS_PERCENTAGE_REGEX t = none) :
    applyBonusAs cs t = cs := by
  unfold applyBonusAs
  rw [h]

theorem applyMissileSpeed_none (cs : ChampionStats) (t : String) (h : MISSILE_SPEED_REGEX t = none) :
    applyMissileSpeed cs t = cs := by
  unfold applyMissileSpeed
  rw [h]

theorem applyGameplayRadius_none (cs : ChampionStats) (t : String) (h : GAMEPLAY_RADIUS_REGEX t = none) :
    applyGameplayRadius cs t = cs := by
  unfold applyGameplayRadius
  rw [h]

theorem applySelectionRadius_none (cs : ChampionStats) (t : String) (h : SELECTION_RADIUS_REGEX t = none) :
    applySelectionRadius cs t = cs := by
  unfold applySelectionRadius
  rw [h]

theorem applyPathingRadius_none (cs : ChampionStats) (t : String) (h : PATHING_RADIUS_REGEX t = none) :
    applyPathingRadius cs t = cs := by
  unfold applyPathingRadius
  rw [h]

theorem applyAcquisitionRadius_none (cs : ChampionStats) (t : String) (h : ACQUISITION_RADIUS_REGEX t = none) :
    applyAcquisitionRadius cs t = cs := by
  unfold applyAcquisitionRadius
  rw [h]

theorem applyAramDealt_none (cs : ChampionStats) (t : String) (h : ARAM_DAMEGE_DEALT_BONUS_PERCENTAGE_REGEX t = none) :
    applyAramDealt cs t = cs := by
  unfold applyAramDealt
  rw [h]

theorem applyAramTaken_none (cs : ChampionStats) (t : String) (h : ARAM_DAMEGE_TAKEN_BONUS_PERCENTAGE_REGEX t = none) :
    applyAramTaken cs t = cs := by
  unfold applyAramTaken
  rw [h]

theorem applyAramAttackSpeed_none (cs : ChampionStats) (t : String) (h : ARAM_ATTACK_SPEED_BONUS_PERCENTAGE_REGEX t = none) :
    applyAramAttackSpeed cs t = cs := by
  unfold applyAramAttackSpeed
  rw [h]

theorem applyAramHaste_none (cs : ChampionStats) (t : String) (h : ARAM_ABILITY_HASTE_BONUS_REGEX t = none) :
    applyAramHaste cs t = cs := by
  unfold applyAramHaste
  rw [h]

theorem applyAramEnergy_none (cs : ChampionStats) (t : String) (h : ARAM_ENERGY_REGEN_BONUS_PERCENTAGE_REGEX t = none) :
    applyAramEnergy cs t = cs := by
  unfold applyAramEnergy
  rw [h]

theorem applyAramHealing_none (cs : ChampionStats) (t : String) (h : ARAM_HEALING_BONUS_PERCENTAGE_REGEX t = none) :
    applyAramHealing cs t = cs := by
  unfold applyAramHealing
  rw [h]

theorem applyAramShielding_none (cs : ChampionStats) (t : String) (h : ARAM_SHIELDING_BONUS_PERCENTAGE_REGEX t = none) :
    applyAramShielding cs t = cs := by
  unfold applyAramShielding
  rw [h]

theorem applyAramTenacity_none (cs : ChampionStats) (t : String) (h : ARAM_TENACITY_BONUS_PERCENTAGE_REGEX t = none) :
    applyAramTenacity cs t = cs := by
  unfold applyAramTenacity
  rw [h]

theorem processStat_at_Health (cs : ChampionStats) (t : String) (ht : t ≠ "") :
    processStat cs ⟨"health", t⟩ = applyHealth cs t := by
  unfold processStat
  rw [if_neg ht]
  rfl

theorem processStat_at_Resource (cs : ChampionStats) (t : String) (ht : t ≠ "") :
    processStat cs ⟨"resource", t⟩ = applyResource cs t := by
  unfold processStat
  rw [if_neg ht]
  rfl

theorem processStat_at_HealthRegen (cs : ChampionStats) (t : String) (ht : t ≠ "") :
    processStat cs ⟨"health regen", t⟩ = applyHealthRegen cs t := by
  unfold processStat
  rw [if_neg ht]
  rfl

theorem processStat_at_ResourceRegen (cs : ChampionStats) (t : String) (ht : t ≠ "") :
    processStat cs ⟨"resource regen", t⟩ = applyResourceRegen cs t := by
  unfold processStat
  rw [if_neg ht]
  rfl

theorem processStat_at_Armor (cs : ChampionStats) (t : String) (ht : t ≠ "") :
    processStat cs ⟨"armor", t⟩ = applyArmor cs t := by
  unfold processStat
  rw [if_neg ht]
  rfl

theorem processStat_at_Attack (cs : ChampionStats) (t : String) (ht : t ≠ "") :
    processStat cs ⟨"attack damage", t⟩ = applyAttack cs t := by
  unfold processStat
  rw [if_neg ht]
  rfl

theorem processStat_at_MagicResist (cs : ChampionStats) (t : String) (ht : t ≠ "") :
    processStat cs ⟨"mr", t⟩ = applyMagicResist cs t := by
  unfold processStat
  rw [if_neg ht]
  rfl

theorem processStat_at_CritDamage (cs : ChampionStats) (t : String) (ht : t ≠ "") :
    processStat cs ⟨"critical damage", t⟩ = applyCritDamage cs t := by
  unfold processStat
  rw [if_neg ht]
  rfl

theorem processStat_at_MovementSpeed (cs : ChampionStats) (t : String) (ht : t ≠ "") :
    processStat cs ⟨"ms", t⟩ = applyMovementSpeed cs t := by
  unfold processStat
  rw [if_neg ht]
  rfl

theorem processStat_at_AttackRange (cs : ChampionStats) (t : String) (ht : t ≠ "") :
    processStat cs ⟨"range", t⟩ = applyAttackRange cs t := by
  unfold processStat
  rw [if_neg ht]
  rfl

theorem processStat_at_AttackSpeedBase (cs : ChampionStats) (t : String) (ht : t ≠ "") :
    processStat cs ⟨"attack speed", t⟩ = applyAttackSpeedBase cs t := by
  unfold processStat
  rw [if_neg ht]
  rfl

theorem processStat_at_Windup (cs : ChampionStats) (t : String) (ht : t ≠ "") :
    processStat cs ⟨"windup", t⟩ = applyWindup cs t := by
  unfold processStat
  rw [if_neg ht]
  rfl

theorem processStat_at_AsRatio (cs : ChampionStats) (t : String) (ht : t ≠ "") :
    processStat cs ⟨"as ratio", t⟩ = applyAsRatio cs t := by
  unfold processStat
  rw [if_neg ht]
  rfl

theorem processStat_at_BonusAs (cs : ChampionStats) (t : String) (ht : t ≠ "") :
    processStat cs ⟨"bonus as", t⟩ = applyBonusAs cs t := by
  unfold processStat
  rw [if_neg ht]
  rfl

theorem processStat_at_MissileSpeed (cs : ChampionStats) (t : String) (ht : t ≠ "") :
    processStat cs ⟨"missile speed", t⟩ = applyMissileSpeed cs t := by
  unfold processStat
  rw [if_neg ht]
  rfl

theorem processStat_at_GameplayRadius (cs : ChampionStats) (t : String) (ht : t ≠ "") :
    processStat cs ⟨"gameplay radius", t⟩ = applyGameplayRadius cs t := by
  unfold processStat
  rw [if_neg ht]
  rfl

theorem processStat_at_SelectionRadius (cs : ChampionStats) (t : String) (ht : t ≠ "") :
    processStat cs ⟨"selection radius", t⟩ = applySelectionRadius cs t := by
  unfold processStat
  rw [if_neg ht]
  rfl

theorem processStat_at_AcquisitionRadius (cs : ChampionStats) (t : String) (ht : t ≠ "") :
    processStat cs ⟨"acquisition radius", t⟩ = applyAcquisitionRadius cs t := by
  unfold processStat
  rw [if_neg ht]
  rfl

theorem processStat_at_AramDealt (cs : ChampionStats) (t : String) (ht : t ≠ "") :
    processStat cs ⟨"aram-dmg-dealt", t⟩ = applyAramDealt cs t := by
  unfold processStat
  rw [if_neg ht]
  rfl

theorem processStat_at_AramTaken (cs : ChampionStats) (t : String) (ht : t ≠ "") :
    processStat cs ⟨"aram-dmg-taken", t⟩ = applyAramTaken cs t := by
  unfold processStat
  rw [if_neg ht]
  rfl

theorem processStat_at_AramAttackSpeed (cs : ChampionStats) (t : String) (ht : t ≠ "") :
    processStat cs ⟨"aram_attack_speed", t⟩ = applyAramAttackSpeed cs t := by
  unfold processStat
  rw [if_neg ht]
  rfl

theorem processStat_at_AramHaste (cs : ChampionStats) (t : String) (ht : t ≠ "") :
    processStat cs ⟨"aram_ability_haste", t⟩ = applyAramHaste cs t := by
  unfold processStat
  rw [if_neg ht]
  rfl

theorem processStat_at_AramEnergy (cs : ChampionStats) (t : String) (ht : t ≠ "") :
    processStat cs ⟨"aram_energy_regen", t⟩ = applyAramEnergy cs t := by
  unfold processStat
  rw [if_neg ht]
  rfl

theorem processStat_at_AramHealing (cs : ChampionStats) (t : String) (ht : t ≠ "") :
    processStat cs ⟨"aram-healing", t⟩ = applyAramHealing cs t := by
  unfold processStat
  rw [if_neg ht]
  rfl

theorem processStat_at_AramShielding (cs : ChampionStats) (t : String) (ht : t ≠ "") :
    processStat cs ⟨"aram-shielding", t⟩ = applyAramShielding cs t := by
  unfold processStat
  rw [if_neg ht]
  rfl

theorem processStat_at_AramTenacity (cs : ChampionStats) (t : String) (ht : t ≠ "") :
    processStat cs ⟨"aram_tenacity", t⟩ = applyAramTenacity cs t := by
  unfold processStat
  rw [if_neg ht]
  rfl

theorem processStat_frame (cs : ChampionStats) (obs : RawFieldObservation) :
    (processStat cs obs).name = cs.name ∧
      (strHasSub obs.field_name "pathing radius" = false →
        (processStat cs obs).pathing_radius = cs.pathing_radius) := by
  unfold processStat
  by_cases h0 : obs.text = ""
  · rw [if_pos h0]
    exact ⟨rfl, fun _ => rfl⟩
  rw [if_neg h0]
  by_cases h1 : obs.field_name = "health"
  · rw [if_pos h1]
    obtain ⟨_, _, hh1⟩ := applyHealth_shape cs obs.text
    rw [hh1]
    exact ⟨rfl, fun _ => rfl⟩
  rw [if_neg h1]
  by_cases h2 : obs.field_name = "resource"
  · rw [if_pos h2]
    obtain ⟨_, _, _, hh2⟩ := applyResource_shape cs obs.text
    rw [hh2]
    exact ⟨rfl, fun _ => rfl⟩
  rw [if_neg h2]
  by_cases h3 : obs.field_name = "health regen"
  · rw [if_pos h3]
    obtain ⟨_, _, hh3⟩ := applyHealthRegen_shape cs obs.text
    rw [hh3]
    exact ⟨rfl, fun _ => rfl⟩
  rw [if_neg h3]
  by_cases h4 : obs.field_name = "resource regen"
  · rw [if_pos h4]
    obtain ⟨_, _, hh4⟩ := applyResourceRegen_shape cs obs.text
    rw [hh4]
    exact ⟨rfl, fun _ => rfl⟩
  rw [if_neg h4]
  by_cases h5 : obs.field_name = "armor"
  · rw [if_pos h5]
    obtain ⟨_, _, hh5⟩ := applyArmor_shape cs obs.text
    rw [hh5]
    exact ⟨rfl, fun _ => rfl⟩
  rw [if_neg h5]
  by_cases h6 : obs.field_name = "attack damage"
  · rw [if_pos h6]
    obtain ⟨_, _, hh6⟩ := applyAttack_shape cs obs.text
    rw [hh6]
    exact ⟨rfl, fun _ => rfl⟩
  rw [if_neg h6]
  by_cases h7 : obs.field_name = "mr"
  · rw [if_pos h7]
    obtain ⟨_, _, hh7⟩ := applyMagicResist_shape cs obs.text
    rw [hh7]
    exact ⟨rfl, fun _ => rfl⟩
  rw [if_neg h7]
  by_cases h8 : obs.field_name = "critical damage"
  · rw [if_pos h8]
    obtain ⟨_, hh8⟩ := applyCritDamage_shape cs obs.text
    rw [hh8]
    exact ⟨rfl, fun _ => rfl⟩
  rw [if_neg h8]
  by_cases h9 : obs.field_name = "ms"
  · rw [if_pos h9]
    obtain ⟨_, hh9⟩ := applyMovementSpeed_shape cs obs.text
    rw [hh9]
    exact ⟨rfl, fun _ => rfl⟩
  rw [if_neg h9]
  by_cases h10 : obs.field_name = "range"
  · rw [if_pos h10]
    obtain ⟨_, hh10⟩ := applyAttackRange_shape cs obs.text
    rw [hh10]
    exact ⟨rfl, fun _ => rfl⟩
  rw [if_neg h10]
  by_cases h11 : obs.field_name = "attack speed"
  · rw [if_pos h11]
    obtain ⟨_, hh11⟩ := applyAttackSpeedBase_shape cs obs.text
    rw [hh11]
    exact ⟨rfl, fun _ => rfl⟩
  rw [if_neg h11]
  by_cases h12 : obs.field_name = "windup"
  · rw [if_pos h12]
    obtain ⟨_, hh12⟩ := applyWindup_shape cs obs.text
    rw [hh12]
    exact ⟨rfl, fun _ => rfl⟩
  rw [if_neg h12]
  by_cases h13 : obs.field_name = "as ratio"
  · rw [if_pos h13]
    obtain ⟨_, hh13⟩ := applyAsRatio_shape cs obs.text
    rw [hh13]
    exact ⟨rfl, fun _ => rfl⟩
  rw [if_neg h13]
  by_cases h14 : obs.field_name = "bonus as"
  · rw [if_pos h14]
    obtain ⟨_, hh14⟩ := applyBonusAs_shape cs obs.text
    rw [hh14]
    exact ⟨rfl, fun _ => rfl⟩
  rw [if_neg h14]
  by_cases h15 : obs.field_name = "missile speed"
  · rw [if_pos h15]
    obtain ⟨_, hh15⟩ := applyMissileSpeed_shape cs obs.text
    rw [hh15]
    exact ⟨rfl, fun _ => rfl⟩
  rw [if_neg h15]
  by_cases h16 : obs.field_name = "gameplay radius"
  · rw [if_pos h16]
    obtain ⟨_, hh16⟩ := applyGameplayRadius_shape cs obs.text
    rw [hh16]
    exact ⟨rfl, fun _ => rfl⟩
  rw [if_neg h16]
  by_cases h17 : obs.field_name = "selection radius"
  · rw [if_pos h17]
    obtain ⟨_, hh17⟩ := applySelectionRadius_shape cs obs.text
    rw [hh17]
    exact ⟨rfl, fun _ => rfl⟩
  rw [if_neg h17]
  by_cases h18 : strHasSub obs.field_name "pathing radius" = true
  · rw [if_pos h18]
    obtain ⟨_, hh18⟩ := applyPathingRadius_shape cs obs.text
    rw [hh18]
    exact ⟨rfl, fun hfalse => absurd (h18.symm.trans hfalse) (by decide)⟩
  rw [if_neg h18]
  by_cases h19 : obs.field_name = "acquisition radius"
  · rw [if_pos h19]
    obtain ⟨_, hh19⟩ := applyAcquisitionRadius_shape cs obs.text
    rw [hh19]
    exact ⟨rfl, fun _ => rfl⟩
  rw [if_neg h19]
  by_cases h20 : obs.field_name = "aram-dmg-dealt"
  · rw [if_pos h20]
    obtain ⟨_, hh20⟩ := applyAramDealt_shape cs obs.text
    rw [hh20]
    exact ⟨rfl, fun _ => rfl⟩
  rw [if_neg h20]
  by_cases h21 : obs.field_name = "aram-dmg-taken"
  · rw [if_pos h21]
    obtain ⟨_, hh21⟩ := applyAramTaken_shape cs obs.text
    rw [hh21]
    exact ⟨rfl, fun _ => rfl⟩
  rw [if_neg h21]
  by_cases h22 : obs.field_name = "aram_attack_speed"
  · rw [if_pos h22]
    obtain ⟨_, hh22⟩ := applyAramAttackSpeed_shape cs obs.text
    rw [hh22]
    exact ⟨rfl, fun _ => rfl⟩
  rw [if_neg h22]
  by_cases h23 : obs.field_name = "aram_ability_haste"
  · rw [if_pos h23]
    obtain ⟨_, hh23⟩ := applyAramHaste_shape cs obs.text
    rw [hh23]
    exact ⟨rfl, fun _ => rfl⟩
  rw [if_neg h23]
  by_cases h24 : obs.field_name = "aram_energy_regen"
  · rw [if_pos h24]
    obtain ⟨_, hh24⟩ := applyAramEnergy_shape cs obs.text
    rw [hh24]
    exact ⟨rfl, fun _ => rfl⟩
  rw [if_neg h24]
  by_cases h25 : obs.field_name = "aram-healing"
  · rw [if_pos h25]
    obtain ⟨_, hh25⟩ := applyAramHealing_shape cs obs.text
    rw [hh25]
    exact ⟨rfl, fun _ => rfl⟩
  rw [if_neg h25]
  by_cases h26 : obs.field_name = "aram-shielding"
  · rw [if_pos h26]
    obtain ⟨_, hh26⟩ := applyAramShielding_shape cs obs.text
    rw [hh26]
    exact ⟨rfl, fun _ => rfl⟩
  rw [if_neg h26]
  by_cases h27 : obs.field_name = "aram_tenacity"
  · rw [if_pos h27]
    obtain ⟨_, hh27⟩ := applyAramTenacity_shape cs obs.text
    rw [hh27]
    exact ⟨rfl, fun _ => rfl⟩
  rw [if_neg h27]
  by_cases hign : (ignoreMarkers.any fun p => pyStarts obs.field_name p) = true
  · rw [if_pos hign]
    exact ⟨rfl, fun _ => rfl⟩
  rw [if_neg hign]
  exact ⟨rfl, fun _ => rfl⟩

theorem processStat_at_pathing (cs : ChampionStats) (fn t : String) (ht : t ≠ "")
    (hsub : strHasSub fn "pathing radius" = true)
    (h1 : fn ≠ "health")
    (h2 : fn ≠ "resource")
    (h3 : fn ≠ "health regen")
    (h4 : fn ≠ "resource regen")
    (h5 : fn ≠ "armor")
    (h6 : fn ≠ "attack damage")
    (h7 : fn ≠ "mr")
    (h8 : fn ≠ "critical damage")
    (h9 : fn ≠ "ms")
    (h10 : fn ≠ "range")
    (h11 : fn ≠ "attack speed")
    (h12 : fn ≠ "windup")
    (h13 : fn ≠ "as ratio")
    (h14 : fn ≠ "bonus as")
    (h15 : fn ≠ "missile speed")
    (h16 : fn ≠ "gameplay radius")
    (h17 : fn ≠ "selection radius") :
    processStat cs ⟨fn, t⟩ = applyPathingRadius cs t := by
  unfold processStat
  rw [if_neg ht, if_neg h1, if_neg h2, if_neg h3, if_neg h4, if_neg h5, if_neg h6, if_neg h7, if_neg h8, if_neg h9, if_neg h10, if_neg h11, if_neg h12, if_neg h13, if_neg h14, if_neg h15, if_neg h16, if_neg h17, if_pos hsub]

theorem processStat_name (cs : ChampionStats) (obs : RawFieldObservation) :
    (processStat cs obs).name = cs.name :=
  (processStat_frame cs obs).1

theorem foldl_processStat_name (obss : List RawFieldObservation) (cs : ChampionStats) :
    (obss.foldl processStat cs).name = cs.name := by
  induction obss generalizing cs with
  | nil => rfl
  | cons o os ih =>
    rw [List.foldl_cons, ih (processStat cs o), processStat_name]

theorem parse_champion_stats_name (e : ChampionEntry) (obss : List RawFieldObservation) :
    (parse_champion_stats e obss).name = e.name :=
  foldl_processStat_name obss { name := e.name }

theorem pathing_sub_ne_keys (fn : String) (h : strHasSub fn "pathing radius" = true) :
    fn ≠ "health" ∧ fn ≠ "resource" ∧ fn ≠ "health regen" ∧ fn ≠ "resource regen" ∧
    fn ≠ "armor" ∧ fn ≠ "attack damage" ∧ fn ≠ "mr" ∧ fn ≠ "critical damage" ∧
    fn ≠ "ms" ∧ fn ≠ "range" ∧ fn ≠ "attack speed" ∧ fn ≠ "windup" ∧
    fn ≠ "as ratio" ∧ fn ≠ "bonus as" ∧ fn ≠ "missile speed" ∧
    fn ≠ "gameplay radius" ∧ fn ≠ "selection radius" := by
  refine ⟨?_, ?_, ?_, ?_, ?_, ?_, ?_, ?_, ?_, ?_, ?_, ?_, ?_, ?_, ?_, ?_, ?_⟩
  all_goals rintro rfl
  all_goals exact absurd h (by decide)

theorem gather_fold_getElem? {α β : Type} (f : α → β) (stubs : List α)
    (order : List Nat) (slots : List (Option β)) (hlen : slots.length = stubs.length)
    (j : Nat) :
    (order.foldl (fun sl i => sl.set i ((stubs[i]?).map f)) slots)[j]? =
      if j ∈ order ∧ j < stubs.length then some ((stubs[j]?).map f) else slots[j]? := by
  induction order generalizing slots with
  | nil => simp
  | cons i rest ih =>
    rw [List.foldl_cons,
      ih (slots.set i ((stubs[i]?).map f)) (by rw [List.length_set, hlen])]
    by_cases hr : j ∈ rest ∧ j < stubs.length
    · rw [if_pos hr, if_pos ⟨List.mem_cons_of_mem _ hr.1, hr.2⟩]
    · rw [if_neg hr, List.getElem?_set]
      by_cases hij : i = j
      · subst hij
        rw [if_pos rfl]
        by_cases hi : i < stubs.length
        · rw [if_pos (by rw [hlen]; exact hi), if_pos ⟨List.mem_cons_self i rest, hi⟩]
        · rw [if_neg (by rw [hlen]; exact hi), if_neg (fun hc => hi hc.2),
            List.getElem?_eq_none (by rw [hlen]; omega)]
      · rw [if_neg hij,
          if_neg (fun hc => by
            rcases List.mem_cons.mp hc.1 with he | hm
            · exact hij he.symm
            · exact hr ⟨hm, hc.2⟩)]

theorem gatherSlots_of_perm {α β : Type} (f : α → β) (stubs : List α)
    (order : List Nat) (hperm : order.Perm (List.range stubs.length)) :
    gatherSlots f stubs order = stubs.map (fun s => some (f s)) := by
  apply List.ext_getElem?
  intro j
  have hmem : j ∈ order ↔ j < stubs.length := by rw [hperm.mem_iff, List.mem_range]
  rw [gatherSlots, gather_fold_getElem? f stubs order _ (by simp), List.getElem?_map]
  by_cases hj : j < stubs.length
  · rw [if_pos ⟨hmem.mpr hj, hj⟩, List.getElem?_eq_getElem hj]
    rfl
  · rw [if_neg (fun hc => hj hc.2), List.getElem?_replicate, if_neg hj,
      List.getElem?_eq_none (by omega)]
    rfl

theorem zip_take_map {α β : Type} (l : List α) (k : Nat) (g : α → Option β) :
    l.zip ((l.take k).map g) = (l.take k).zip ((l.take k).map g) := by
  induction l generalizing k with
  | nil => simp
  | cons a t ih =>
    cases k with
    | zero => simp
    | succ k =>
      simp only [List.take_succ_cons, List.map_cons, List.zip_cons_cons, ih]

theorem truncStubs_eq_take (stubs : List ChampionEntry) (maxN : Option Nat) :
    ∃ k, truncStubs stubs maxN = stubs.take k := by
  cases maxN with
  | none => exact ⟨stubs.length, (List.take_length stubs).symm⟩
  | some k => exact ⟨k, rfl⟩

theorem parseRow_ok_of_complete (base_url : String) (row : TableRow)
    (h : rowComplete row = true) :
    parseRow base_url row = Except.ok (rowEntry base_url row) := by
  obtain ⟨td1, td4⟩ := row
  cases td1 with
  | none => simp [rowComplete] at h
  | some c1 =>
    cases td4 with
    | none => simp [rowComplete] at h
    | some c4 =>
      cases ha : c1.anchorHrefs with
      | nil => simp [rowComplete, ha] at h
      | cons a rest => simp [parseRow, rowEntry, ha]

theorem parseRow_error_of_incomplete (base_url : String) (row : TableRow)
    (h : rowComplete row = false) :
    ∃ e, parseRow base_url row = Except.error e := by
  obtain ⟨td1, td4⟩ := row
  cases td1 with
  | none => exact ⟨ListingError.missingTd1, rfl⟩
  | some c1 =>
    cases td4 with
    | none => exact ⟨ListingError.missingTd4, rfl⟩
    | some c4 =>
      cases ha : c1.anchorHrefs with
      | nil => exact ⟨ListingError.missingAnchor, by simp [parseRow, ha]⟩
      | cons a rest => simp [rowComplete, ha] at h

theorem parse_entrys_ok (base_url : String) (rows : List TableRow)
    (h : ∀ r ∈ rows, rowComplete r = true) :
    parse_champion_entrys base_url rows = Except.ok (rows.map (rowEntry base_url)) := by
  induction rows with
  | nil => rfl
  | cons r rs ih =>
    simp only [parse_champion_entrys,
      parseRow_ok_of_complete base_url r (h r (List.mem_cons_self r rs)),
      ih (fun x hx => h x (List.mem_cons_of_mem r hx)), List.map_cons]

theorem parse_entrys_error (base_url : String) (rows : List TableRow)
    (h : ∃ r ∈ rows, rowComplete r = false) :
    ∃ e, parse_champion_entrys base_url rows = Except.error e := by
  induction rows with
  | nil =>
    obtain ⟨r, hr, _⟩ := h
    cases hr
  | cons r rs ih =>
    by_cases hc : rowComplete r = true
    · obtain ⟨x, hx, hxf⟩ := h
      rcases List.mem_cons.mp hx with rfl | hm
      · rw [hc] at hxf
        cases hxf
      · obtain ⟨e, he⟩ := ih ⟨x, hm, hxf⟩
        exact ⟨e, by
          simp only [parse_champion_entrys, parseRow_ok_of_complete base_url r hc, he]⟩
    · have hf : rowComplete r = false := by
        revert hc
        cases rowComplete r <;> simp
      obtain ⟨e, he⟩ := parseRow_error_of_incomplete base_url r hf
      exact ⟨e, by simp only [parse_champion_entrys, he]⟩

theorem countP_replicate_idle (k : Nat) :
    (List.replicate k TaskPhase.idle).countP isInFlight = 0 := by
  induction k with
  | zero => rfl
  | succ k ih => simp [List.replicate, List.countP_cons, isInFlight, ih]

theorem countP_set_inFlight (l : List TaskPhase) (i : Nat)
    (h : l[i]? = some TaskPhase.idle) :
    (l.set i TaskPhase.inFlight).countP isInFlight = l.countP isInFlight + 1 := by
  induction l generalizing i with
  | nil => cases h
  | cons a t ih =>
    cases i with
    | zero =>
      rw [List.getElem?_cons_zero] at h
      cases h
      simp [List.set, List.countP_cons, isInFlight]
    | succ n =>
      rw [List.getElem?_cons_succ] at h
      simp [List.set, List.countP_cons, ih n h]
      omega

theorem countP_set_finished (l : List TaskPhase) (i : Nat)
    (h : l[i]? = some TaskPhase.inFlight) :
    (l.set i TaskPhase.finished).countP isInFlight + 1 = l.countP isInFlight := by
  induction l generalizing i with
  | nil => cases h
  | cons a t ih =>
    cases i with
    | zero =>
      rw [List.getElem?_cons_zero] at h
      cases h
      simp [List.set, List.countP_cons, isInFlight]
    | succ n =>
      rw [List.getElem?_cons_succ] at h
      have := ih n h
      simp [List.set, List.countP_cons]
      omega

theorem gate_invariant {n k : Nat} {s : GateState} (h : GateReachable n k s) :
    s.permits + inFlightCount s = n := by
  induction h with
  | start => simp [inFlightCount, countP_replicate_idle]
  | step hr hs ih =>
    cases hs with
    | acquire i hp ht =>
      have hc := countP_set_inFlight _ i ht
      simp only [inFlightCount] at ih ⊢
      simp only [hc]
      omega
    | release i ht =>
      have hc := countP_set_finished _ i ht
      simp only [inFlightCount] at ih ⊢
      omega

theorem countStarted_retryGo {E A : Type} (att : Nat → Except E A) (i r : Nat) :
    countStarted (retryGo att i (r + 1)).2 ≤ r + 1 := by
  induction r generalizing i with
  | zero => simp [retryGo, countStarted, List.countP_cons, List.countP_nil]
  | succ r ih =>
    cases hatt : att i with
    | ok a => simp [retryGo, hatt, countStarted, List.countP_cons, List.countP_nil]
    | error e =>
      have hnext := ih (i + 1)
      simp [retryGo, hatt, countStarted, List.countP_cons] at hnext ⊢
      omega

/-- C8: for the health field, the observation text "Health 600 (+ 90)" yields
    health_base "600" and health_growth "90", while "Health 600" (no growth
    clause) yields health_base "600" and health_growth unset. -/
theorem c8_health_literals :
    (processStat { name := none } ⟨"health", "Health 600 (+ 90)"⟩).health_base = some "600" ∧
    (processStat { name := none } ⟨"health", "Health 600 (+ 90)"⟩).health_growth = some "90" ∧
    (processStat { name := none } ⟨"health", "Health 600"⟩).health_base = some "600" ∧
    (processStat { name := none } ⟨"health", "Health 600"⟩).health_growth = none :=
  ⟨rfl, rfl, rfl, rfl⟩

/-- C10: the placeholder skip checks are case-sensitive although the patterns
    match case-insensitively: a resource-regen observation spelling the
    placeholder "n/a" in lowercase still matches and writes
    resource_regen_base = "n/a"; likewise a resource observation spelling
    "resource" in lowercase is not skipped.  Only the exact spellings "N/A"
    and "Resource" trigger the skips. -/
theorem c10_case_sensitive_placeholders :
    RESOURCE_REGEN_REGEX "mana regen. n/a" = some ("n/a", none) ∧
    (processStat { name := none } ⟨"resource regen", "mana regen. n/a"⟩).resource_regen_base
        = some "n/a" ∧
    (processStat { name := none } ⟨"resource", "resource n/a"⟩).resource_name
        = some "resource" ∧
    (processStat { name := none } ⟨"resource", "resource n/a"⟩).resource_base
        = some "n/a" :=
  ⟨rfl, rfl, rfl, rfl⟩

/-- C4 counterexample: a second observation with the same label "health"
    overwrites the slot the first one set — health_base goes from "600" to
    "700" — so "once set, not overwritten by a later observation with the
    same label" is false on the code. -/
theorem c4_counterexample :
    (processStat { name := none } ⟨"health", "Health 600"⟩).health_base = some "600" ∧
    (processStat (processStat { name := none } ⟨"health", "Health 600"⟩)
        ⟨"health", "Health 700"⟩).health_base = some "700" :=
  ⟨rfl, rfl⟩

theorem processStat_writes_Health (cs : ChampionStats) (t b : String)
    (g : Option String) (h : HEALTH_REGEX t = some (b, g)) :
    (processStat cs ⟨"health", t⟩).health_base = some b ∧
    (processStat cs ⟨"health", t⟩).health_growth = g := by
  have ht : t ≠ "" := by
    rintro rfl
    rw [show HEALTH_REGEX "" = none from rfl] at h
    cases h
  rw [processStat_at_Health cs t ht]
  unfold applyHealth
  rw [h]
  exact ⟨rfl, rfl⟩

theorem processStat_writes_Resource (cs : ChampionStats) (t nm b : String)
    (g : Option String) (h : RESOURCE_REGEX t = some (nm, b, g)) (hg : nm ≠ "Resource") :
    (processStat cs ⟨"resource", t⟩).resource_name = some nm ∧
    (processStat cs ⟨"resource", t⟩).resource_base = some b ∧
    (processStat cs ⟨"resource", t⟩).resource_growth = g := by
  have ht : t ≠ "" := by
    rintro rfl
    rw [show RESOURCE_REGEX "" = none from rfl] at h
    cases h
  rw [processStat_at_Resource cs t ht]
  unfold applyResource
  rw [h]
  dsimp only
  rw [if_pos hg]
  exact ⟨rfl, rfl, rfl⟩

theorem processStat_writes_HealthRegen (cs : ChampionStats) (t b : String)
    (g : Option String) (h : HEALTH_REGEN_REGEX t = some (b, g)) :
    (processStat cs ⟨"health regen", t⟩).health_regen_base = some b ∧
    (processStat cs ⟨"health regen", t⟩).health_regen_growth = g := by
  have ht : t ≠ "" := by
    rintro rfl
    rw [show HEALTH_REGEN_REGEX "" = none from rfl] at h
    cases h
  rw [processStat_at_HealthRegen cs t ht]
  unfold applyHealthRegen
  rw [h]
  exact ⟨rfl, rfl⟩

theorem processStat_writes_ResourceRegen (cs : ChampionStats) (t b : String)
    (g : Option String) (h : RESOURCE_REGEN_REGEX t = some (b, g)) (hg : b ≠ "N/A") :
    (processStat cs ⟨"resource regen", t⟩).resource_regen_base = some b ∧
    (processStat cs ⟨"resource regen", t⟩).resource_regen_growth = g := by
  have ht : t ≠ "" := by
    rintro rfl
    rw [show RESOURCE_REGEN_REGEX "" = none from rfl] at h
    cases h
  rw [processStat_at_ResourceRegen cs t ht]
  unfold applyResourceRegen
  rw [h]
  dsimp only
  rw [if_pos hg]
  exact ⟨rfl, rfl⟩

theorem processStat_writes_Armor (cs : ChampionStats) (t b : String)
    (g : Option String) (h : ARMOR_REGEX t = some (b, g)) :
    (processStat cs ⟨"armor", t⟩).armor_base = some b ∧
    (processStat cs ⟨"armor", t⟩).armor_growth = g := by
  have ht : t ≠ "" := by
    rintro rfl
    rw [show ARMOR_REGEX "" = none from rfl] at h
    cases h
  rw [processStat_at_Armor cs t ht]
  unfold applyArmor
  rw [h]
  exact ⟨rfl, rfl⟩

theorem processStat_writes_Attack (cs : ChampionStats) (t b : String)
    (g : Option String) (h : ATTACK_REGEX t = some (b, g)) :
    (processStat cs ⟨"attack damage", t⟩).attack_base = some b ∧
    (processStat cs ⟨"attack damage", t⟩).attack_growth = g := by
  have ht : t ≠ "" := by
    rintro rfl
    rw [show ATTACK_REGEX "" = none from rfl] at h
    cases h
  rw [processStat_at_Attack cs t ht]
  unfold applyAttack
  rw [h]
  exact ⟨rfl, rfl⟩

theorem processStat_writes_MagicResist (cs : ChampionStats) (t b : String)
    (g : Option String) (h : MAGIC_RESIST_REGEX t = some (b, g)) :
    (processStat cs ⟨"mr", t⟩).magic_resist_base = some b ∧
    (processStat cs ⟨"mr", t⟩).magic_resist_growth = g := by
  have ht : t ≠ "" := by
    rintro rfl
    rw [show MAGIC_RESIST_REGEX "" = none from rfl] at h
    cases h
  rw [processStat_at_MagicResist cs t ht]
  unfold applyMagicResist
  rw [h]
  exact ⟨rfl, rfl⟩

theorem processStat_writes_CritDamage (cs : ChampionStats) (t v : String)
    (h : CRIT_DAMAGE_PERCENTAGE_REGEX t = some v) :
    (processStat cs ⟨"critical damage", t⟩).crit_damage_percentage = some v := by
  have ht : t ≠ "" := by
    rintro rfl
    rw [show CRIT_DAMAGE_PERCENTAGE_REGEX "" = none from rfl] at h
    cases h
  rw [processStat_at_CritDamage cs t ht]
  unfold applyCritDamage
  rw [h]

theorem processStat_writes_MovementSpeed (cs : ChampionStats) (t v : String)
    (h : MOVEMENT_SPEED_REGEX t = some v) :
    (processStat cs ⟨"ms", t⟩).movement_speed = some v := by
  have ht : t ≠ "" := by
    rintro rfl
    rw [show MOVEMENT_SPEED_REGEX "" = none from rfl] at h
    cases h
  rw [processStat_at_MovementSpeed cs t ht]
  unfold applyMovementSpeed
  rw [h]

theorem processStat_writes_AttackRange (cs : ChampionStats) (t v : String)
    (h : ATTACK_RANGE_REGEX t = some v) :
    (processStat cs ⟨"range", t⟩).attack_range = some v := by
  have ht : t ≠ "" := by
    rintro rfl
    rw [show ATTACK_RANGE_REGEX "" = none from rfl] at h
    cases h
  rw [processStat_at_AttackRange cs t ht]
  unfold applyAttackRange
  rw [h]

theorem processStat_writes_AttackSpeedBase (cs : ChampionStats) (t v : String)
    (h : ATTACK_SPEED_BASE_REGEX t = some v) :
    (processStat cs ⟨"attack speed", t⟩).attack_speed_base = some v := by
  have ht : t ≠ "" := by
    rintro rfl
    rw [show ATTACK_SPEED_BASE_REGEX "" = none from rfl] at h
    cases h
  rw [processStat_at_AttackSpeedBase cs t ht]
  unfold applyAttackSpeedBase
  rw [h]

theorem processStat_writes_Windup (cs : ChampionStats) (t v : String)
    (h : ATTACK_WINDUP_PERCENTAGE_REGEX t = some v) :
    (processStat cs ⟨"windup", t⟩).attack_windup_percentage = some v := by
  have ht : t ≠ "" := by
    rintro rfl
    rw [show ATTACK_WINDUP_PERCENTAGE_REGEX "" = none from rfl] at h
    cases h
  rw [processStat_at_Windup cs t ht]
  unfold applyWindup
  rw [h]

theorem processStat_writes_AsRatio (cs : ChampionStats) (t v : String)
    (h : ATTACK_SPEED_RATIO_REGEX t = some v) :
    (processStat cs ⟨"as ratio", t⟩).attack_speed_ratio = some v := by
  have ht : t ≠ "" := by
    rintro rfl
    rw [show ATTACK_SPEED_RATIO_REGEX "" = none from rfl] at h
    cases h
  rw [processStat_at_AsRatio cs t ht]
  unfold applyAsRatio
  rw [h]

theorem processStat_writes_BonusAs (cs : ChampionStats) (t v : String)
    (h : ATTACK_SPEED_BONUS_PERCENTAGE_REGEX t = some v) :
    (processStat cs ⟨"bonus as", t⟩).attack_speed_bonus_percentage = some v := by
  have ht : t ≠ "" := by
    rintro rfl
    rw [show ATTACK_SPEED_BONUS_PERCENTAGE_REGEX "" = none from rfl] at h
    cases h
  rw [processStat_at_BonusAs cs t ht]
  unfold applyBonusAs
  rw [h]

theorem processStat_writes_MissileSpeed (cs : ChampionStats) (t v : String)
    (h : MISSILE_SPEED_REGEX t = some v) :
    (processStat cs ⟨"missile speed", t⟩).missile_speed = some v := by
  have ht : t ≠ "" := by
    rintro rfl
    rw [show MISSILE_SPEED_REGEX "" = none from rfl] at h
    cases h
  rw [processStat_at_MissileSpeed cs t ht]
  unfold applyMissileSpeed
  rw [h]

theorem processStat_writes_GameplayRadius (cs : ChampionStats) (t v : String)
    (h : GAMEPLAY_RADIUS_REGEX t = some v) :
    (processStat cs ⟨"gameplay radius", t⟩).gameplay_radius = some v := by
  have ht : t ≠ "" := by
    rintro rfl
    rw [show GAMEPLAY_RADIUS_REGEX "" = none from rfl] at h
    cases h
  rw [processStat_at_GameplayRadius cs t ht]
  unfold applyGameplayRadius
  rw [h]

theorem processStat_writes_SelectionRadius (cs : ChampionStats) (t v : String)
    (h : SELECTION_RADIUS_REGEX t = some v) :
    (processStat cs ⟨"selection radius", t⟩).selection_radius = some v := by
  have ht : t ≠ "" := by
    rintro rfl
    rw [show SELECTION_RADIUS_REGEX "" = none from rfl] at h
    cases h
  rw [processStat_at_SelectionRadius cs t ht]
  unfold applySelectionRadius
  rw [h]

theorem processStat_writes_Pathing (cs : ChampionStats) (fn t v : String)
    (hsub : strHasSub fn "pathing radius" = true) (h : PATHING_RADIUS_REGEX t = some v) :
    (processStat cs ⟨fn, t⟩).pathing_radius = some v := by
  have ht : t ≠ "" := by
    rintro rfl
    rw [show PATHING_RADIUS_REGEX "" = none from rfl] at h
    cases h
  obtain ⟨h1, h2, h3, h4, h5, h6, h7, h8, h9, h10, h11, h12, h13, h14, h15, h16, h17⟩ :=
    pathing_sub_ne_keys fn hsub
  rw [processStat_at_pathing cs fn t ht hsub h1 h2 h3 h4 h5 h6 h7 h8 h9 h10
    h11 h12 h13 h14 h15 h16 h17]
  unfold applyPathingRadius
  rw [h]

theorem processStat_writes_AcquisitionRadius (cs : ChampionStats) (t v : String)
    (h : ACQUISITION_RADIUS_REGEX t = some v) :
    (processStat cs ⟨"acquisition radius", t⟩).acquisition_radius = some v := by
  have ht : t ≠ "" := by
    rintro rfl
    rw [show ACQUISITION_RADIUS_REGEX "" = none from rfl] at h
    cases h
  rw [processStat_at_AcquisitionRadius cs t ht]
  unfold applyAcquisitionRadius
  rw [h]

theorem processStat_writes_AramDealt (cs : ChampionStats) (t v : String)
    (h : ARAM_DAMEGE_DEALT_BONUS_PERCENTAGE_REGEX t = some v) :
    (processStat cs ⟨"aram-dmg-dealt", t⟩).aram_damage_dealt_bonus_percentage = some v := by
  have ht : t ≠ "" := by
    rintro rfl
    rw [show ARAM_DAMEGE_DEALT_BONUS_PERCENTAGE_REGEX "" = none from rfl] at h
    cases h
  rw [processStat_at_AramDealt cs t ht]
  unfold applyAramDealt
  rw [h]

theorem processStat_writes_AramTaken (cs : ChampionStats) (t v : String)
    (h : ARAM_DAMEGE_TAKEN_BONUS_PERCENTAGE_REGEX t = some v) :
    (processStat cs ⟨"aram-dmg-taken", t⟩).aram_damage_taken_bonus_percentage = some v := by
  have ht : t ≠ "" := by
    rintro rfl
    rw [show ARAM_DAMEGE_TAKEN_BONUS_PERCENTAGE_REGEX "" = none from rfl] at h
    cases h
  rw [processStat_at_AramTaken cs t ht]
  unfold applyAramTaken
  rw [h]

theorem processStat_writes_AramAttackSpeed (cs : ChampionStats) (t v : String)
    (h : ARAM_ATTACK_SPEED_BONUS_PERCENTAGE_REGEX t = some v) :
    (processStat cs ⟨"aram_attack_speed", t⟩).aram_attack_speed_bonus_percentage = some v := by
  have ht : t ≠ "" := by
    rintro rfl
    rw [show ARAM_ATTACK_SPEED_BONUS_PERCENTAGE_REGEX "" = none from rfl] at h
    cases h
  rw [processStat_at_AramAttackSpeed cs t ht]
  unfold applyAramAttackSpeed
  rw [h]

theorem processStat_writes_AramHaste (cs : ChampionStats) (t v : String)
    (h : ARAM_ABILITY_HASTE_BONUS_REGEX t = some v) :
    (processStat cs ⟨"aram_ability_haste", t⟩).aram_ability_haste_bonus = some v := by
  have ht : t ≠ "" := by
    rintro rfl
    rw [show ARAM_ABILITY_HASTE_BONUS_REGEX "" = none from rfl] at h
    cases h
  rw [processStat_at_AramHaste cs t ht]
  unfold applyAramHaste
  rw [h]

theorem processStat_writes_AramEnergy (cs : ChampionStats) (t v : String)
    (h : ARAM_ENERGY_REGEN_BONUS_PERCENTAGE_REGEX t = some v) :
    (processStat cs ⟨"aram_energy_regen", t⟩).aram_energy_regen_bonus_percentage = some v := by
  have ht : t ≠ "" := by
    rintro rfl
    rw [show ARAM_ENERGY_REGEN_BONUS_PERCENTAGE_REGEX "" = none from rfl] at h
    cases h
  rw [processStat_at_AramEnergy cs t ht]
  unfold applyAramEnergy
  rw [h]

theorem processStat_writes_AramHealing (cs : ChampionStats) (t v : String)
    (h : ARAM_HEALING_BONUS_PERCENTAGE_REGEX t = some v) :
    (processStat cs ⟨"aram-healing", t⟩).aram_healing_bonus_percentage = some v := by
  have ht : t ≠ "" := by
    rintro rfl
    rw [show ARAM_HEALING_BONUS_PERCENTAGE_REGEX "" = none from rfl] at h
    cases h
  rw [processStat_at_AramHealing cs t ht]
  unfold applyAramHealing
  rw [h]

theorem processStat_writes_AramShielding (cs : ChampionStats) (t v : String)
    (h : ARAM_SHIELDING_BONUS_PERCENTAGE_REGEX t = some v) :
    (processStat cs ⟨"aram-shielding", t⟩).aram_shielding_bonus_percentage = some v := by
  have ht : t ≠ "" := by
    rintro rfl
    rw [show ARAM_SHIELDING_BONUS_PERCENTAGE_REGEX "" = none from rfl] at h
    cases h
  rw [processStat_at_AramShielding cs t ht]
  unfold applyAramShielding
  rw [h]

theorem processStat_writes_AramTenacity (cs : ChampionStats) (t v : String)
    (h : ARAM_TENACITY_BONUS_PERCENTAGE_REGEX t = some v) :
    (processStat cs ⟨"aram_tenacity", t⟩).aram_tenacity_bonus_percentage = some v := by
  have ht : t ≠ "" := by
    rintro rfl
    rw [show ARAM_TENACITY_BONUS_PERCENTAGE_REGEX "" = none from rfl] at h
    cases h
  rw [processStat_at_AramTenacity cs t ht]
  unfold applyAramTenacity
  rw [h]

/-- C4 (amended): for every field of the extraction engine, a qualifying
    observation writes the field's slots regardless of the record state the
    earlier observations of the sequence accumulated — so a later qualifying
    observation carrying the same label overwrites the value an earlier one
    set, and the last qualifying rule application for a field wins, not the
    first (the source assigns the captures unconditionally on every match);
    one conjunct per field, each quantified over an arbitrary earlier
    observation prefix. -/
theorem c4_last_write_wins :
    (∀ (cs : ChampionStats) (earlier : List RawFieldObservation) (t b : String)
      (g : Option String), HEALTH_REGEX t = some (b, g) →
      ((earlier ++ [RawFieldObservation.mk "health" t]).foldl processStat cs).health_base = some b ∧
      ((earlier ++ [RawFieldObservation.mk "health" t]).foldl processStat cs).health_growth = g) ∧
    (∀ (cs : ChampionStats) (earlier : List RawFieldObservation) (t nm b : String)
      (g : Option String), RESOURCE_REGEX t = some (nm, b, g) → nm ≠ "Resource" →
      ((earlier ++ [RawFieldObservation.mk "resource" t]).foldl processStat cs).resource_name = some nm ∧
      ((earlier ++ [RawFieldObservation.mk "resource" t]).foldl processStat cs).resource_base = some b ∧
      ((earlier ++ [RawFieldObservation.mk "resource" t]).foldl processStat cs).resource_growth = g) ∧
    (∀ (cs : ChampionStats) (earlier : List RawFieldObservation) (t b : String)
      (g : Option String), HEALTH_REGEN_REGEX t = some (b, g) →
      ((earlier ++ [RawFieldObservation.mk "health regen" t]).foldl processStat cs).health_regen_base = some b ∧
      ((earlier ++ [RawFieldObservation.mk "health regen" t]).foldl processStat cs).health_regen_growth = g) ∧
    (∀ (cs : ChampionStats) (earlier : List RawFieldObservation) (t b : String)
      (g : Option String), RESOURCE_REGEN_REGEX t = some (b, g) → b ≠ "N/A" →
      ((earlier ++ [RawFieldObservation.mk "resource regen" t]).foldl processStat cs).resource_regen_base = some b ∧
      ((earlier ++ [RawFieldObservation.mk "resource regen" t]).foldl processStat cs).resource_regen_growth = g) ∧
    (∀ (cs : ChampionStats) (earlier : List RawFieldObservation) (t b : String)
      (g : Option String), ARMOR_REGEX t = some (b, g) →
      ((earlier ++ [RawFieldObservation.mk "armor" t]).foldl processStat cs).armor_base = some b ∧
      ((earlier ++ [RawFieldObservation.mk "armor" t]).foldl processStat cs).armor_growth = g) ∧
    (∀ (cs : ChampionStats) (earlier : List RawFieldObservation) (t b : String)
      (g : Option String), ATTACK_REGEX t = some (b, g) →
      ((earlier ++ [RawFieldObservation.mk "attack damage" t]).foldl processStat cs).attack_base = some b ∧
      ((earlier ++ [RawFieldObservation.mk "attack damage" t]).foldl processStat cs).attack_growth = g) ∧
    (∀ (cs : ChampionStats) (earlier : List RawFieldObservation) (t b : String)
      (g : Option String), MAGIC_RESIST_REGEX t = some (b, g) →
      ((earlier ++ [RawFieldObservation.mk "mr" t]).foldl processStat cs).magic_resist_base = some b ∧
      ((earlier ++ [RawFieldObservation.mk "mr" t]).foldl processStat cs).magic_resist_growth = g) ∧
    (∀ (cs : ChampionStats) (earlier : List RawFieldObservation) (t v : String),
      CRIT_DAMAGE_PERCENTAGE_REGEX t = some v →
      ((earlier ++ [RawFieldObservation.mk "critical damage" t]).foldl processStat cs).crit_damage_percentage = some v) ∧
    (∀ (cs : ChampionStats) (earlier : List RawFieldObservation) (t v : String),
      MOVEMENT_SPEED_REGEX t = some v →
      ((earlier ++ [RawFieldObservation.mk "ms" t]).foldl processStat cs).movement_speed = some v) ∧
    (∀ (cs : ChampionStats) (earlier : List RawFieldObservation) (t v : String),
      ATTACK_RANGE_REGEX t = some v →
      ((earlier ++ [RawFieldObservation.mk "range" t]).foldl processStat cs).attack_range = some v) ∧
    (∀ (cs : ChampionStats) (earlier : List RawFieldObservation) (t v : String),
      ATTACK_SPEED_BASE_REGEX t = some v →
      ((earlier ++ [RawFieldObservation.mk "attack speed" t]).foldl processStat cs).attack_speed_base = some v) ∧
    (∀ (cs : ChampionStats) (earlier : List RawFieldObservation) (t v : String),
      ATTACK_WINDUP_PERCENTAGE_REGEX t = some v →
      ((earlier ++ [RawFieldObservation.mk "windup" t]).foldl processStat cs).attack_windup_percentage = some v) ∧
    (∀ (cs : ChampionStats) (earlier : List RawFieldObservation) (t v : String),
      ATTACK_SPEED_RATIO_REGEX t = some v →
      ((earlier ++ [RawFieldObservation.mk "as ratio" t]).foldl processStat cs).attack_speed_ratio = some v) ∧
    (∀ (cs : ChampionStats) (earlier : List RawFieldObservation) (t v : String),
      ATTACK_SPEED_BONUS_PERCENTAGE_REGEX t = some v →
      ((earlier ++ [RawFieldObservation.mk "bonus as" t]).foldl processStat cs).attack_speed_bonus_percentage = some v) ∧
    (∀ (cs : ChampionStats) (earlier : List RawFieldObservation) (t v : String),
      MISSILE_SPEED_REGEX t = some v →
      ((earlier ++ [RawFieldObservation.mk "missile speed" t]).foldl processStat cs).missile_speed = some v) ∧
    (∀ (cs : ChampionStats) (earlier : List RawFieldObservation) (t v : String),
      GAMEPLAY_RADIUS_REGEX t = some v →
      ((earlier ++ [RawFieldObservation.mk "gameplay radius" t]).foldl processStat cs).gameplay_radius = some v) ∧
    (∀ (cs : ChampionStats) (earlier : List RawFieldObservation) (t v : String),
      SELECTION_RADIUS_REGEX t = some v →
      ((earlier ++ [RawFieldObservation.mk "selection radius" t]).foldl processStat cs).selection_radius = some v) ∧
    (∀ (cs : ChampionStats) (earlier : List RawFieldObservation) (fn t v : String),
      strHasSub fn "pathing radius" = true → PATHING_RADIUS_REGEX t = some v →
      ((earlier ++ [RawFieldObservation.mk fn t]).foldl processStat cs).pathing_radius = some v) ∧
    (∀ (cs : ChampionStats) (earlier : List RawFieldObservation) (t v : String),
      ACQUISITION_RADIUS_REGEX t = some v →
      ((earlier ++ [RawFieldObservation.mk "acquisition radius" t]).foldl processStat cs).acquisition_radius = some v) ∧
    (∀ (cs : ChampionStats) (earlier : List RawFieldObservation) (t v : String),
      ARAM_DAMEGE_DEALT_BONUS_PERCENTAGE_REGEX t = some v →
      ((earlier ++ [RawFieldObservation.mk "aram-dmg-dealt" t]).foldl processStat cs).aram_damage_dealt_bonus_percentage = some v) ∧
    (∀ (cs : ChampionStats) (earlier : List RawFieldObservation) (t v : String),
      ARAM_DAMEGE_TAKEN_BONUS_PERCENTAGE_REGEX t = some v →
      ((earlier ++ [RawFieldObservation.mk "aram-dmg-taken" t]).foldl processStat cs).aram_damage_taken_bonus_percentage = some v) ∧
    (∀ (cs : ChampionStats) (earlier : List RawFieldObservation) (t v : String),
      ARAM_ATTACK_SPEED_BONUS_PERCENTAGE_REGEX t = some v →
      ((earlier ++ [RawFieldObservation.mk "aram_attack_speed" t]).foldl processStat cs).aram_attack_speed_bonus_percentage = some v) ∧
    (∀ (cs : ChampionStats) (earlier : List RawFieldObservation) (t v : String),
      ARAM_ABILITY_HASTE_BONUS_REGEX t = some v →
      ((earlier ++ [RawFieldObservation.mk "aram_ability_haste" t]).foldl processStat cs).aram_ability_haste_bonus = some v) ∧
    (∀ (cs : ChampionStats) (earlier : List RawFieldObservation) (t v : String),
      ARAM_ENERGY_REGEN_BONUS_PERCENTAGE_REGEX t = some v →
      ((earlier ++ [RawFieldObservation.mk "aram_energy_regen" t]).foldl processStat cs).aram_energy_regen_bonus_percentage = some v) ∧
    (∀ (cs : ChampionStats) (earlier : List RawFieldObservation) (t v : String),
      ARAM_HEALING_BONUS_PERCENTAGE_REGEX t = some v →
      ((earlier ++ [RawFieldObservation.mk "aram-healing" t]).foldl processStat cs).aram_healing_bonus_percentage = some v) ∧
    (∀ (cs : ChampionStats) (earlier : List RawFieldObservation) (t v : String),
      ARAM_SHIELDING_BONUS_PERCENTAGE_REGEX t = some v →
      ((earlier ++ [RawFieldObservation.mk "aram-shielding" t]).foldl processStat cs).aram_shielding_bonus_percentage = some v) ∧
    (∀ (cs : ChampionStats) (earlier : List RawFieldObservation) (t v : String),
      ARAM_TENACITY_BONUS_PERCENTAGE_REGEX t = some v →
      ((earlier ++ [RawFieldObservation.mk "aram_tenacity" t]).foldl processStat cs).aram_tenacity_bonus_percentage = some v) := by
  refine ⟨?_, ?_, ?_, ?_, ?_, ?_, ?_, ?_, ?_, ?_, ?_, ?_, ?_, ?_, ?_, ?_, ?_, ?_, ?_, ?_, ?_, ?_, ?_, ?_, ?_, ?_, ?_⟩
  · intro cs earlier t b g h
    rw [List.foldl_append, List.foldl_cons, List.foldl_nil]
    exact processStat_writes_Health _ t b g h
  · intro cs earlier t nm b g h hg
    rw [List.foldl_append, List.foldl_cons, List.foldl_nil]
    exact processStat_writes_Resource _ t nm b g h hg
  · intro cs earlier t b g h
    rw [List.foldl_append, List.foldl_cons, List.foldl_nil]
    exact processStat_writes_HealthRegen _ t b g h
  · intro cs earlier t b g h hg
    rw [List.foldl_append, List.foldl_cons, List.foldl_nil]
    exact processStat_writes_ResourceRegen _ t b g h hg
  · intro cs earlier t b g h
    rw [List.foldl_append, List.foldl_cons, List.foldl_nil]
    exact processStat_writes_Armor _ t b g h
  · intro cs earlier t b g h
    rw [List.foldl_append, List.foldl_cons, List.foldl_nil]
    exact processStat_writes_Attack _ t b g h
  · intro cs earlier t b g h
    rw [List.foldl_append, List.foldl_cons, List.foldl_nil]
    exact processStat_writes_MagicResist _ t b g h
  · intro cs earlier t v h
    rw [List.foldl_append, List.foldl_cons, List.foldl_nil]
    exact processStat_writes_CritDamage _ t v h
  · intro cs earlier t v h
    rw [List.foldl_append, List.foldl_cons, List.foldl_nil]
    exact processStat_writes_MovementSpeed _ t v h
  · intro cs earlier t v h
    rw [List.foldl_append, List.foldl_cons, List.foldl_nil]
    exact processStat_writes_AttackRange _ t v h
  · intro cs earlier t v h
    rw [List.foldl_append, List.foldl_cons, List.foldl_nil]
    exact processStat_writes_AttackSpeedBase _ t v h
  · intro cs earlier t v h
    rw [List.foldl_append, List.foldl_cons, List.foldl_nil]
    exact processStat_writes_Windup _ t v h
  · intro cs earlier t v h
    rw [List.foldl_append, List.foldl_cons, List.foldl_nil]
    exact processStat_writes_AsRatio _ t v h
  · intro cs earlier t v h
    rw [List.foldl_append, List.foldl_cons, List.foldl_nil]
    exact processStat_writes_BonusAs _ t v h
  · intro cs earlier t v h
    rw [List.foldl_append, List.foldl_cons, List.foldl_nil]
    exact processStat_writes_MissileSpeed _ t v h
  · intro cs earlier t v h
    rw [List.foldl_append, List.foldl_cons, List.foldl_nil]
    exact processStat_writes_GameplayRadius _ t v h
  · intro cs earlier t v h
    rw [List.foldl_append, List.foldl_cons, List.foldl_nil]
    exact processStat_writes_SelectionRadius _ t v h
  · intro cs earlier fn t v hsub h
    rw [List.foldl_append, List.foldl_cons, List.foldl_nil]
    exact processStat_writes_Pathing _ fn t v hsub h
  · intro cs earlier t v h
    rw [List.foldl_append, List.foldl_cons, List.foldl_nil]
    exact processStat_writes_AcquisitionRadius _ t v h
  · intro cs earlier t v h
    rw [List.foldl_append, List.foldl_cons, List.foldl_nil]
    exact processStat_writes_AramDealt _ t v h
  · intro cs earlier t v h
    rw [List.foldl_append, List.foldl_cons, List.foldl_nil]
    exact processStat_writes_AramTaken _ t v h
  · intro cs earlier t v h
    rw [List.foldl_append, List.foldl_cons, List.foldl_nil]
    exact processStat_writes_AramAttackSpeed _ t v h
  · intro cs earlier t v h
    rw [List.foldl_append, List.foldl_cons, List.foldl_nil]
    exact processStat_writes_AramHaste _ t v h
  · intro cs earlier t v h
    rw [List.foldl_append, List.foldl_cons, List.foldl_nil]
    exact processStat_writes_AramEnergy _ t v h
  · intro cs earlier t v h
    rw [List.foldl_append, List.foldl_cons, List.foldl_nil]
    exact processStat_writes_AramHealing _ t v h
  · intro cs earlier t v h
    rw [List.foldl_append, List.foldl_cons, List.foldl_nil]
    exact processStat_writes_AramShielding _ t v h
  · intro cs earlier t v h
    rw [List.foldl_append, List.foldl_cons, List.foldl_nil]
    exact processStat_writes_AramTenacity _ t v h

theorem c4_witness :
    (([RawFieldObservation.mk "health" "Health 600"] ++ [RawFieldObservation.mk "health" "Health 700"]).foldl processStat
        { name := none }).health_base = some "700" ∧
    (([RawFieldObservation.mk "health" "Health 600"] ++ [RawFieldObservation.mk "health" "Health 700"]).foldl processStat
        { name := none }).health_growth = none :=
  c4_last_write_wins.1 { name := none } [RawFieldObservation.mk "health" "Health 600"] "Health 700"
    "700" none rfl

/-- C7 counterexample: the label "x pathing radius" does not begin with
    "pathing radius", yet the pathing-radius rule fires on it (the source
    guard is substring containment, not a prefix test), so "applies iff the
    label begins with its key" is false on the code. -/
theorem c7_counterexample :
    (processStat { name := none } ⟨"x pathing radius", "Pathing radius 35"⟩).pathing_radius
        = some "35" ∧
    pyStarts "x pathing radius" "pathing radius" = false :=
  ⟨rfl, rfl⟩

/-- C7 (amended): labels are dispatched by exact equality except the
    pathing-radius case, which matches by substring containment
    ("pathing radius" in the label), and the ignore list, which matches by
    label prefix: the pathing slot is never touched when the label does not
    contain "pathing radius", and any nonempty-text observation whose label
    contains "pathing radius" is dispatched to the pathing-radius rule. -/
theorem c7_pathing_substring_dispatch (cs : ChampionStats) (fn t : String) :
    (strHasSub fn "pathing radius" = false →
      (processStat cs ⟨fn, t⟩).pathing_radius = cs.pathing_radius) ∧
    (strHasSub fn "pathing radius" = true → t ≠ "" →
      processStat cs ⟨fn, t⟩ = applyPathingRadius cs t) := by
  constructor
  · intro h
    exact (processStat_frame cs ⟨fn, t⟩).2 h
  · intro hsub ht
    obtain ⟨h1, h2, h3, h4, h5, h6, h7, h8, h9, h10, h11, h12, h13, h14, h15, h16, h17⟩ :=
      pathing_sub_ne_keys fn hsub
    exact processStat_at_pathing cs fn t ht hsub h1 h2 h3 h4 h5 h6 h7 h8 h9 h10
      h11 h12 h13 h14 h15 h16 h17

theorem c7_witness :
    processStat { name := none } ⟨"x pathing radius", "Pathing radius 35"⟩ =
      applyPathingRadius { name := none } "Pathing radius 35" :=
  (c7_pathing_substring_dispatch { name := none } "x pathing radius"
    "Pathing radius 35").2 (by decide) (by decide)

/-- C3: resource "Mana 100 (+ 10)" yields name "Mana", base "100", growth
    "10"; resource "Resource N/A" leaves the whole record unchanged (all
    three resource slots unset); and whenever the resource-regen pattern
    matches with base capture exactly "N/A", the record is left unchanged
    (both resource-regen slots unset). -/
theorem c3_resource_placeholders :
    ((processStat { name := none } ⟨"resource", "Mana 100 (+ 10)"⟩).resource_name
        = some "Mana" ∧
     (processStat { name := none } ⟨"resource", "Mana 100 (+ 10)"⟩).resource_base
        = some "100" ∧
     (processStat { name := none } ⟨"resource", "Mana 100 (+ 10)"⟩).resource_growth
        = some "10") ∧
    processStat { name := none } ⟨"resource", "Resource N/A"⟩ = { name := none } ∧
    (∀ (cs : ChampionStats) (t : String) (g : Option String),
      RESOURCE_REGEN_REGEX t = some ("N/A", g) →
      processStat cs ⟨"resource regen", t⟩ = cs) := by
  refine ⟨⟨rfl, rfl, rfl⟩, rfl, ?_⟩
  intro cs t g h
  by_cases ht : t = ""
  · subst ht
    rfl
  · rw [processStat_at_ResourceRegen cs t ht]
    unfold applyResourceRegen
    rw [h]
    rfl

theorem c3_witness :
    RESOURCE_REGEN_REGEX "Mana regen. N/A" = some ("N/A", none) ∧
    processStat { name := some "Z" } ⟨"resource regen", "Mana regen. N/A"⟩
      = { name := some "Z" } :=
  ⟨rfl, c3_resource_placeholders.2.2 { name := some "Z" } "Mana regen. N/A" none rfl⟩

/-- C2: for every field of the extraction engine, an observation whose text
    does not match that field's pattern (anchored at the start of the text)
    leaves the record unchanged — no partial or garbage value is written and
    no error is raised (the embedding is a total function); one conjunct per
    field, in the source's dispatch order, the pathing-radius field taken
    over every label its substring guard accepts. -/
theorem c2_failed_pattern_leaves_record_unchanged :
    (∀ (cs : ChampionStats) (t : String), HEALTH_REGEX t = none →
      processStat cs ⟨"health", t⟩ = cs) ∧
    (∀ (cs : ChampionStats) (t : String), RESOURCE_REGEX t = none →
      processStat cs ⟨"resource", t⟩ = cs) ∧
    (∀ (cs : ChampionStats) (t : String), HEALTH_REGEN_REGEX t = none →
      processStat cs ⟨"health regen", t⟩ = cs) ∧
    (∀ (cs : ChampionStats) (t : String), RESOURCE_REGEN_REGEX t = none →
      processStat cs ⟨"resource regen", t⟩ = cs) ∧
    (∀ (cs : ChampionStats) (t : String), ARMOR_REGEX t = none →
      processStat cs ⟨"armor", t⟩ = cs) ∧
    (∀ (cs : ChampionStats) (t : String), ATTACK_REGEX t = none →
      processStat cs ⟨"attack damage", t⟩ = cs) ∧
    (∀ (cs : ChampionStats) (t : String), MAGIC_RESIST_REGEX t = none →
      processStat cs ⟨"mr", t⟩ = cs) ∧
    (∀ (cs : ChampionStats) (t : String), CRIT_DAMAGE_PERCENTAGE_REGEX t = none →
      processStat cs ⟨"critical damage", t⟩ = cs) ∧
    (∀ (cs : ChampionStats) (t : String), MOVEMENT_SPEED_REGEX t = none →
      processStat cs ⟨"ms", t⟩ = cs) ∧
    (∀ (cs : ChampionStats) (t : String), ATTACK_RANGE_REGEX t = none →
      processStat cs ⟨"range", t⟩ = cs) ∧
    (∀ (cs : ChampionStats) (t : String), ATTACK_SPEED_BASE_REGEX t = none →
      processStat cs ⟨"attack speed", t⟩ = cs) ∧
    (∀ (cs : ChampionStats) (t : String), ATTACK_WINDUP_PERCENTAGE_REGEX t = none →
      processStat cs ⟨"windup", t⟩ = cs) ∧
    (∀ (cs : ChampionStats) (t : String), ATTACK_SPEED_RATIO_REGEX t = none →
      processStat cs ⟨"as ratio", t⟩ = cs) ∧
    (∀ (cs : ChampionStats) (t : String), ATTACK_SPEED_BONUS_PERCENTAGE_REGEX t = none →
      processStat cs ⟨"bonus as", t⟩ = cs) ∧
    (∀ (cs : ChampionStats) (t : String), MISSILE_SPEED_REGEX t = none →
      processStat cs ⟨"missile speed", t⟩ = cs) ∧
    (∀ (cs : ChampionStats) (t : String), GAMEPLAY_RADIUS_REGEX t = none →
      processStat cs ⟨"gameplay radius", t⟩ = cs) ∧
    (∀ (cs : ChampionStats) (t : String), SELECTION_RADIUS_REGEX t = none →
      processStat cs ⟨"selection radius", t⟩ = cs) ∧
    (∀ (cs : ChampionStats) (fn t : String),
      strHasSub fn "pathing radius" = true → PATHING_RADIUS_REGEX t = none →
      processStat cs ⟨fn, t⟩ = cs) ∧
    (∀ (cs : ChampionStats) (t : String), ACQUISITION_RADIUS_REGEX t = none →
      processStat cs ⟨"acquisition radius", t⟩ = cs) ∧
    (∀ (cs : ChampionStats) (t : String), ARAM_DAMEGE_DEALT_BONUS_PERCENTAGE_REGEX t = none →
      processStat cs ⟨"aram-dmg-dealt", t⟩ = cs) ∧
    (∀ (cs : ChampionStats) (t : String), ARAM_DAMEGE_TAKEN_BONUS_PERCENTAGE_REGEX t = none →
      processStat cs ⟨"aram-dmg-taken", t⟩ = cs) ∧
    (∀ (cs : ChampionStats) (t : String), ARAM_ATTACK_SPEED_BONUS_PERCENTAGE_REGEX t = none →
      processStat cs ⟨"aram_attack_speed", t⟩ = cs) ∧
    (∀ (cs : ChampionStats) (t : String), ARAM_ABILITY_HASTE_BONUS_REGEX t = none →
      processStat cs ⟨"aram_ability_haste", t⟩ = cs) ∧
    (∀ (cs : ChampionStats) (t : String), ARAM_ENERGY_REGEN_BONUS_PERCENTAGE_REGEX t = none →
      processStat cs ⟨"aram_energy_regen", t⟩ = cs) ∧
    (∀ (cs : ChampionStats) (t : String), ARAM_HEALING_BONUS_PERCENTAGE_REGEX t = none →
      processStat cs ⟨"aram-healing", t⟩ = cs) ∧
    (∀ (cs : ChampionStats) (t : String), ARAM_SHIELDING_BONUS_PERCENTAGE_REGEX t = none →
      processStat cs ⟨"aram-shielding", t⟩ = cs) ∧
    (∀ (cs : ChampionStats) (t : String), ARAM_TENACITY_BONUS_PERCENTAGE_REGEX t = none →
      processStat cs ⟨"aram_tenacity", t⟩ = cs) := by
  refine ⟨?_, ?_, ?_, ?_, ?_, ?_, ?_, ?_, ?_, ?_, ?_, ?_, ?_, ?_, ?_, ?_, ?_, ?_, ?_, ?_, ?_, ?_, ?_, ?_, ?_, ?_, ?_⟩
  · intro cs t h
    by_cases ht : t = ""
    · subst ht
      rfl
    · rw [processStat_at_Health cs t ht, applyHealth_none cs t h]
  · intro cs t h
    by_cases ht : t = ""
    · subst ht
      rfl
    · rw [processStat_at_Resource cs t ht, applyResource_none cs t h]
  · intro cs t h
    by_cases ht : t = ""
    · subst ht
      rfl
    · rw [processStat_at_HealthRegen cs t ht, applyHealthRegen_none cs t h]
  · intro cs t h
    by_cases ht : t = ""
    · subst ht
      rfl
    · rw [processStat_at_ResourceRegen cs t ht, applyResourceRegen_none cs t h]
  · intro cs t h
    by_cases ht : t = ""
    · subst ht
      rfl
    · rw [processStat_at_Armor cs t ht, applyArmor_none cs t h]
  · intro cs t h
    by_cases ht : t = ""
    · subst ht
      rfl
    · rw [processStat_at_Attack cs t ht, applyAttack_none cs t h]
  · intro cs t h
    by_cases ht : t = ""
    · subst ht
      rfl
    · rw [processStat_at_MagicResist cs t ht, applyMagicResist_none cs t h]
  · intro cs t h
    by_cases ht : t = ""
    · subst ht
      rfl
    · rw [processStat_at_CritDamage cs t ht, applyCritDamage_none cs t h]
  · intro cs t h
    by_cases ht : t = ""
    · subst ht
      rfl
    · rw [processStat_at_MovementSpeed cs t ht, applyMovementSpeed_none cs t h]
  · intro cs t h
    by_cases ht : t = ""
    · subst ht
      rfl
    · rw [processStat_at_AttackRange cs t ht, applyAttackRange_none cs t h]
  · intro cs t h
    by_cases ht : t = ""
    · subst ht
      rfl
    · rw [processStat_at_AttackSpeedBase cs t ht, applyAttackSpeedBase_none cs t h]
  · intro cs t h
    by_cases ht : t = ""
    · subst ht
      rfl
    · rw [processStat_at_Windup cs t ht, applyWindup_none cs t h]
  · intro cs t h
    by_cases ht : t = ""
    · subst ht
      rfl
    · rw [processStat_at_AsRatio cs t ht, applyAsRatio_none cs t h]
  · intro cs t h
    by_cases ht : t = ""
    · subst ht
      rfl
    · rw [processStat_at_BonusAs cs t ht, applyBonusAs_none cs t h]
  · intro cs t h
    by_cases ht : t = ""
    · subst ht
      rfl
    · rw [processStat_at_MissileSpeed cs t ht, applyMissileSpeed_none cs t h]
  · intro cs t h
    by_cases ht : t = ""
    · subst ht
      rfl
    · rw [processStat_at_GameplayRadius cs t ht, applyGameplayRadius_none cs t h]
  · intro cs t h
    by_cases ht : t = ""
    · subst ht
      rfl
    · rw [processStat_at_SelectionRadius cs t ht, applySelectionRadius_none cs t h]
  · intro cs fn t hsub h
    by_cases ht : t = ""
    · subst ht
      rfl
    · obtain ⟨h1, h2, h3, h4, h5, h6, h7, h8, h9, h10, h11, h12, h13, h14, h15, h16, h17⟩ :=
        pathing_sub_ne_keys fn hsub
      rw [processStat_at_pathing cs fn t ht hsub h1 h2 h3 h4 h5 h6 h7 h8 h9 h10
        h11 h12 h13 h14 h15 h16 h17, applyPathingRadius_none cs t h]
  · intro cs t h
    by_cases ht : t = ""
    · subst ht
      rfl
    · rw [processStat_at_AcquisitionRadius cs t ht, applyAcquisitionRadius_none cs t h]
  · intro cs t h
    by_cases ht : t = ""
    · subst ht
      rfl
    · rw [processStat_at_AramDealt cs t ht, applyAramDealt_none cs t h]
  · intro cs t h
    by_cases ht : t = ""
    · subst ht
      rfl
    · rw [processStat_at_AramTaken cs t ht, applyAramTaken_none cs t h]
  · intro cs t h
    by_cases ht : t = ""
    · subst ht
      rfl
    · rw [processStat_at_AramAttackSpeed cs t ht, applyAramAttackSpeed_none cs t h]
  · intro cs t h
    by_cases ht : t = ""
    · subst ht
      rfl
    · rw [processStat_at_AramHaste cs t ht, applyAramHaste_none cs t h]
  · intro cs t h
    by_cases ht : t = ""
    · subst ht
      rfl
    · rw [processStat_at_AramEnergy cs t ht, applyAramEnergy_none cs t h]
  · intro cs t h
    by_cases ht : t = ""
    · subst ht
      rfl
    · rw [processStat_at_AramHealing cs t ht, applyAramHealing_none cs t h]
  · intro cs t h
    by_cases ht : t = ""
    · subst ht
      rfl
    · rw [processStat_at_AramShielding cs t ht, applyAramShielding_none cs t h]
  · intro cs t h
    by_cases ht : t = ""
    · subst ht
      rfl
    · rw [processStat_at_AramTenacity cs t ht, applyAramTenacity_none cs t h]

theorem c2_witness :
    HEALTH_REGEX "Health?" = none ∧
    processStat { name := some "Z" } ⟨"health", "Health?"⟩ = { name := some "Z" } :=
  ⟨rfl, c2_failed_pattern_leaves_record_unchanged.1 { name := some "Z" } "Health?" rfl⟩

/-- C5 counterexample: with every attempt failing, the error of the third
    (final) attempt is surfaced to the caller, yet the retry loop logs no
    failure entry for ordinal 3 (the before_sleep callback only runs when a
    further attempt follows) while it does log the failure of attempt 1 — so
    "each failed attempt is logged with its ordinal and the triggering
    error" is false on the code. -/
theorem c5_counterexample :
    (retryRun alwaysFailNav 3).1 = Except.error 3 ∧
    countFailedAt 3 (retryRun alwaysFailNav 3).2 = 0 ∧
    countFailedAt 1 (retryRun alwaysFailNav 3).2 = 1 :=
  ⟨rfl, rfl, rfl⟩

/-- C5 (amended): page navigation is attempted at most 3 times,
    sequentially; each failed attempt that is followed by a retry (the first
    and second) is logged with its ordinal and triggering error; the final
    attempt's failure is not separately logged, but when all 3 attempts fail
    its error is surfaced to the caller unmodified (not swallowed or
    wrapped). -/
theorem c5_retry_contract (E A : Type) :
    (∀ att : Nat → Except E A, countStarted (retryRun att 3).2 ≤ 3) ∧
    (∀ (att : Nat → Except E A) (e1 e2 e3 : E),
      att 1 = Except.error e1 → att 2 = Except.error e2 → att 3 = Except.error e3 →
      retryRun att 3 =
        (Except.error e3,
         [RetryEvent.started 1, RetryEvent.failed 1 e1,
          RetryEvent.started 2, RetryEvent.failed 2 e2,
          RetryEvent.started 3])) := by
  constructor
  · intro att
    exact countStarted_retryGo att 1 2
  · intro att e1 e2 e3 h1 h2 h3
    show retryGo att 1 (1 + 2) = _
    rw [retryGo, h1]
    show (_, _ :: _ :: (retryGo att 2 (0 + 2)).2) = _
    rw [retryGo, h2]
    show (_, _ :: _ :: (_ :: _ :: (retryGo att 3 1).2)) = _
    rw [retryGo, h3]

theorem c5_witness :
    countStarted (retryRun alwaysFailNav 3).2 ≤ 3 ∧
    retryRun alwaysFailNav 3 =
      (Except.error 3,
       [RetryEvent.started 1, RetryEvent.failed 1 1,
        RetryEvent.started 2, RetryEvent.failed 2 2,
        RetryEvent.started 3]) :=
  ⟨(c5_retry_contract Nat Unit).1 alwaysFailNav,
   (c5_retry_contract Nat Unit).2 alwaysFailNav 1 2 3 rfl rfl rfl⟩

/-- C6: a listing row missing a required cell (column 1, column 4, or the
    anchor inside column 1) makes crawlListing fail with a hard error for
    the run; when every row is complete the crawl returns the stubs in row
    document order, and each stub's name is the sort-key attribute of
    column 1 (not its visible text). -/
theorem c6_listing_strict (base_url : String) (rows : List TableRow) :
    ((∃ r ∈ rows, rowComplete r = false) →
      ∃ e, parse_champion_entrys base_url rows = Except.error e) ∧
    ((∀ r ∈ rows, rowComplete r = true) →
      parse_champion_entrys base_url rows = Except.ok (rows.map (rowEntry base_url))) ∧
    (∀ (row : TableRow) (c1 : TableCell) (entry : ChampionEntry),
      row.td1 = some c1 → parseRow base_url row = Except.ok entry →
      entry.name = c1.dataSortValue) := by
  refine ⟨parse_entrys_error base_url rows, parse_entrys_ok base_url rows, ?_⟩
  intro row c1 entry h1 h2
  obtain ⟨td1, td4⟩ := row
  cases h1
  cases td4 with
  | none => cases h2
  | some c4 =>
    cases ha : c1.anchorHrefs with
    | nil =>
      rw [parseRow] at h2
      simp only [ha] at h2
      cases h2
    | cons a rest =>
      rw [parseRow] at h2
      simp only [ha] at h2
      cases h2
      rfl

theorem c6_witness :
    parse_champion_entrys "https://w"
      [⟨some ⟨some "Aatrox", "Aatrox decorated", ["/wiki/Aatrox"]⟩,
        some ⟨none, " V14.9 ", []⟩⟩] =
    Except.ok [⟨some "Aatrox", "V14.9", "https://w/wiki/Aatrox"⟩] :=
  ((c6_listing_strict "https://w"
      [⟨some ⟨some "Aatrox", "Aatrox decorated", ["/wiki/Aatrox"]⟩,
        some ⟨none, " V14.9 ", []⟩⟩]).2.1
    (by decide)).trans rfl

/-- C9: with a concurrency gate of size n, in every state reachable by the
    semaphore transition system — where a detail crawl goes in flight only
    by taking a free permit and returns its permit exactly when it leaves
    the guarded block, on success and on failure alike — at most n detail
    crawls are in flight simultaneously. -/
theorem c9_gate_bound {n k : Nat} {s : GateState} (h : GateReachable n k s) :
    inFlightCount s ≤ n := by
  have := gate_invariant h
  omega

theorem c9_witness :
    inFlightCount ⟨3 - 1, (List.replicate 5 TaskPhase.idle).set 0 TaskPhase.inFlight⟩ ≤ 3 :=
  c9_gate_bound (GateReachable.step GateReachable.start
    (GateStep.acquire ⟨3, List.replicate 5 TaskPhase.idle⟩ 0 (by decide) (by decide)))

/-- C1: whatever order the racing detail crawls complete in, the final pair
    sequence lists entities in listing-discovery order — the (truncated) stub
    list zipped with each stub's own detail record — and every record's name
    equals its paired stub's name. -/
theorem c1_pairing_order_and_name (obsOf : ChampionEntry → List RawFieldObservation)
    (stubs : List ChampionEntry) (maxN : Option Nat) (order : List Nat)
    (hperm : order.Perm (List.range (truncStubs stubs maxN).length)) :
    mainPairs obsOf stubs maxN order =
      (truncStubs stubs maxN).zip
        ((truncStubs stubs maxN).map (fun s => some (detailOf obsOf s))) ∧
    ∀ s r, (s, some r) ∈ mainPairs obsOf stubs maxN order → r.name = s.name := by
  obtain ⟨k, hk⟩ := truncStubs_eq_take stubs maxN
  have hmain : mainPairs obsOf stubs maxN order =
      (truncStubs stubs maxN).zip
        ((truncStubs stubs maxN).map (fun s => some (detailOf obsOf s))) := by
    rw [mainPairs, gatherSlots_of_perm (detailOf obsOf) (truncStubs stubs maxN) order hperm,
      hk, zip_take_map]
  refine ⟨hmain, ?_⟩
  intro s r hmem
  rw [hmain] at hmem
  have hzip : (truncStubs stubs maxN).zip
      ((truncStubs stubs maxN).map (fun s => some (detailOf obsOf s))) =
      (truncStubs stubs maxN).map (fun a => (a, some (detailOf obsOf a))) := by
    have h := List.zip_map' id (fun s => some (detailOf obsOf s)) (truncStubs stubs maxN)
    simpa using h
  rw [hzip] at hmem
  obtain ⟨a, _, heq⟩ := List.mem_map.mp hmem
  injection heq with ha hr
  subst ha
  injection hr with hr
  rw [← hr]
  exact parse_champion_stats_name _ _

theorem c1_witness :
    mainPairs (fun _ => []) [⟨some "A", "", "uA"⟩, ⟨some "B", "", "uB"⟩, ⟨some "C", "", "uC"⟩]
      none [2, 0, 1] =
    [(⟨some "A", "", "uA"⟩, some { name := some "A" }),
     (⟨some "B", "", "uB"⟩, some { name := some "B" }),
     (⟨some "C", "", "uC"⟩, some { name := some "C" })] :=
  ((c1_pairing_order_and_name (fun _ => [])
      [⟨some "A", "", "uA"⟩, ⟨some "B", "", "uB"⟩, ⟨some "C", "", "uC"⟩]
      none [2, 0, 1] (by decide)).1).trans (by decide)
